import Mathlib

/-!
# Device / attribute consistency model of the device-api service

A shallow embedding of `apps/device-api` (models, store accessors in `db/db.go`,
request handlers in `handlers/devices.go`).

* The relational store is a pair of row lists plus the two serial counters that
  hand out fresh ids.
* Every store accessor takes the outcome of the driver round trip as an explicit
  argument (`none`: the statement ran; `some e`: the driver reported `e` and the
  statement did not run), so that failure paths of the handlers can be stated.
* `time.Now()` is an explicit argument.
* A handler returns the `gin` context it wrote to, together with the new store.

The gateway `apps/smart_home` (the two upstream clients in `services`, the handlers
in `handlers/devices.go`) is embedded in the namespace `Gateway`, over an arbitrary
HTTP transport and JSON codec.
-/

deriving instance DecidableEq for Except

namespace Warmhouse

/-! ## models/device.go -/

/-- The Go constant `DeviceStatusActive`. -/
def DeviceStatusActive : String := "active"

/-- The Go constant `DeviceStatusInActive`. -/
def DeviceStatusInActive : String := "inactive"

/-- The Go struct `models.DeviceAttribute`; also a row of `devices_attributes`. -/
structure DeviceAttribute where
  ID : Int
  DeviceID : Int
  Key : String
  Value : String
  deriving DecidableEq, Repr

/-- The Go struct `models.Device`. Timestamps are natural numbers. -/
structure Device where
  ID : Int
  SerialNumber : String
  DeviceModelID : Int
  HouseID : Int
  Name : String
  Status : String
  Attributes : List DeviceAttribute
  LastUpdated : Nat
  CreatedAt : Nat
  deriving DecidableEq, Repr

/-- The Go struct `models.DeviceCreate`. -/
structure DeviceCreate where
  SerialNumber : String
  DeviceModelID : Int
  HouseID : Int
  Name : String
  deriving DecidableEq, Repr

/-- The Go struct `models.DeviceUpdate`. -/
structure DeviceUpdate where
  SerialNumber : String
  DeviceModelID : Int
  HouseID : Int
  Name : String
  deriving DecidableEq, Repr

/-! ## The relational store -/

/-- A row of the `devices` relation, with the eight columns every query of
`db.go` names. -/
structure DeviceRow where
  id : Int
  device_model_id : Int
  house_id : Int
  serial_number : String
  name : String
  status : String
  last_updated : Nat
  created_at : Nat
  deriving DecidableEq, Repr

/-- Modelled from the spec: the schema script of the two relations is not part of
the sources. The spec gives the logical schema
`devices(id, device_model_id, house_id, serial_number, name, status, last_updated, created_at)`,
`devices_attributes(id, device_id, key, value)`, with integer ids "assigned by the
store on creation"; no other constraint is enforced by the store (keeping
attributes consistent with devices is the coordinator's job). `deviceSeq` and
`attrSeq` are the next values of the two id sequences. -/
structure Store where
  devices : List DeviceRow
  attrs : List DeviceAttribute
  deviceSeq : Int
  attrSeq : Int
  deriving DecidableEq, Repr

/-- The eight `Scan` targets of the device queries: a row read into a
`models.Device`, whose `Attributes` stays the nil slice. -/
def scanDevice (r : DeviceRow) : Device :=
  { ID := r.id, SerialNumber := r.serial_number, DeviceModelID := r.device_model_id,
    HouseID := r.house_id, Name := r.name, Status := r.status, Attributes := [],
    LastUpdated := r.last_updated, CreatedAt := r.created_at }

/-- The text of `pgx.ErrNoRows`, what `QueryRow(...).Scan` reports on an empty result. -/
def ErrNoRows : String := "no rows in result set"

/-- SQL `ORDER BY id` on device rows. -/
def orderDevicesById (rows : List DeviceRow) : List DeviceRow :=
  rows.insertionSort (fun a b => a.id ≤ b.id)

/-- SQL `ORDER BY id` on attribute rows. -/
def orderAttrsById (rows : List DeviceAttribute) : List DeviceAttribute :=
  rows.insertionSort (fun a b => a.ID ≤ b.ID)

/-! ## db/db.go -/

namespace DB

/-- `DB.GetDevicesByHouseId`: the query is
`SELECT ... FROM devices WHERE id = $1 ORDER BY id` with `$1 = houseId`. -/
def GetDevicesByHouseId (st : Store) (fault : Option String) (houseId : Int) :
    Except String (List Device) :=
  match fault with
  | some e => .error ("error querying devices: " ++ e)
  | none =>
    .ok ((orderDevicesById (st.devices.filter (fun r => r.id == houseId))).map scanDevice)

/-- `DB.GetDeviceByID`: `SELECT ... FROM devices WHERE id = $1`, first row scanned. -/
def GetDeviceByID (st : Store) (fault : Option String) (id : Int) : Except String Device :=
  match fault with
  | some e => .error ("error getting device by ID: " ++ e)
  | none =>
    match st.devices.find? (fun r => r.id == id) with
    | none => .error ("error getting device by ID: " ++ ErrNoRows)
    | some r => .ok (scanDevice r)

/-- `DB.CreateDevice`: `INSERT INTO devices (...) VALUES ($1, $2, $3, $4, 'active', $5, $5)
RETURNING ...`, with `$5 = now`. -/
def CreateDevice (st : Store) (fault : Option String) (now : Nat) (s : DeviceCreate) :
    Except String Device × Store :=
  match fault with
  | some e => (.error ("error creating device: " ++ e), st)
  | none =>
    let row : DeviceRow :=
      { id := st.deviceSeq, device_model_id := s.DeviceModelID, house_id := s.HouseID,
        serial_number := s.SerialNumber, name := s.Name, status := "active",
        last_updated := now, created_at := now }
    (.ok (scanDevice row),
      { st with devices := st.devices ++ [row], deviceSeq := st.deviceSeq + 1 })

/-! ### The variable-arity `UPDATE` statement -/

end DB

/-- A value of the argument slice `[]interface{}` handed to the driver. -/
inductive Value where
  | time (t : Nat)
  | text (s : String)
  | int (n : Int)
  deriving DecidableEq, Repr

/-- The columns of `devices` that `UpdateDevice` can assign. -/
inductive Column where
  | last_updated
  | name
  | serial_number
  | house_id
  | device_model_id
  deriving DecidableEq, Repr

/-- The local variables `query`, `args`, `argCount` of `DB.UpdateDevice` while the
statement is being assembled. `sets` records, clause by clause, which column each
piece of text appended to `query` assigns from which placeholder. -/
structure UpdateBuilder where
  query : String
  sets : List (Column × Nat)
  args : List Value
  argCount : Nat
  deriving DecidableEq, Repr

/-- One `query += fmt.Sprintf(clause + "%d", argCount); args = append(args, v); argCount++`. -/
def UpdateBuilder.addSet (b : UpdateBuilder) (clause : String) (col : Column) (v : Value) :
    UpdateBuilder :=
  { query := b.query ++ clause ++ toString b.argCount
    sets := b.sets ++ [(col, b.argCount)]
    args := b.args ++ [v]
    argCount := b.argCount + 1 }

/-- The finished statement: text, the assignments and the placeholder of the
`WHERE id = $k` predicate that the text spells, and the arguments. -/
structure UpdateStmt where
  query : String
  sets : List (Column × Nat)
  whereIdx : Nat
  args : List Value
  deriving DecidableEq, Repr

/-- Lines 148-176 of `db.go`: the statement `DB.UpdateDevice` assembles. -/
def buildUpdate (now : Nat) (id : Int) (s : DeviceUpdate) : UpdateStmt :=
  let b0 : UpdateBuilder :=
    { query := "UPDATE devices SET last_updated = $1"
      sets := [(Column.last_updated, 1)]
      args := [Value.time now]
      argCount := 2 }
  let b1 := if s.Name ≠ "" then b0.addSet ", name = $" Column.name (Value.text s.Name) else b0
  let b2 :=
    if s.SerialNumber ≠ "" then
      b1.addSet ", serial_number = $" Column.serial_number (Value.text s.SerialNumber)
    else b1
  let b3 := b2.addSet ", house_id = $" Column.house_id (Value.int s.HouseID)
  let b4 := b3.addSet ", device_model_id = $" Column.device_model_id (Value.int s.DeviceModelID)
  { query := b4.query ++ " WHERE id = $" ++ toString b4.argCount ++
      "\n\t\tRETURNING id, device_model_id, house_id, serial_number, name, status, last_updated, created_at"
    sets := b4.sets
    whereIdx := b4.argCount
    args := b4.args ++ [Value.int id] }

/-- The SQL name of a column. -/
def Column.sql : Column → String
  | .last_updated => "last_updated"
  | .name => "name"
  | .serial_number => "serial_number"
  | .house_id => "house_id"
  | .device_model_id => "device_model_id"

/-- The text that a list of assignments and a predicate placeholder spell. -/
def renderUpdate (sets : List (Column × Nat)) (whereIdx : Nat) : String :=
  "UPDATE devices SET " ++
    ", ".intercalate (sets.map (fun p => p.1.sql ++ " = $" ++ toString p.2)) ++
    " WHERE id = $" ++ toString whereIdx ++
    "\n\t\tRETURNING id, device_model_id, house_id, serial_number, name, status, last_updated, created_at"

/-- The argument bound to placeholder `$k`: the `k`-th entry of the argument list. -/
def placeholder (args : List Value) (k : Nat) : Option Value :=
  if k = 0 then none else args.get? (k - 1)

/-- Whether a value can be stored in a column. -/
def Column.accepts : Column → Value → Bool
  | .last_updated, .time _ => true
  | .name, .text _ => true
  | .serial_number, .text _ => true
  | .house_id, .int _ => true
  | .device_model_id, .int _ => true
  | _, _ => false

/-- Binding the placeholders of the `SET` clauses; fails on a missing or ill-typed
argument. -/
def bindSets (args : List Value) : List (Column × Nat) → Option (List (Column × Value))
  | [] => some []
  | (c, k) :: rest =>
    match placeholder args k, bindSets args rest with
    | some v, some bound => if c.accepts v then some ((c, v) :: bound) else none
    | _, _ => none

/-- One assignment `col = v` on a row. -/
def assign (r : DeviceRow) : Column × Value → DeviceRow
  | (.last_updated, .time t) => { r with last_updated := t }
  | (.name, .text s) => { r with name := s }
  | (.serial_number, .text s) => { r with serial_number := s }
  | (.house_id, .int n) => { r with house_id := n }
  | (.device_model_id, .int n) => { r with device_model_id := n }
  | _ => r

/-- The largest placeholder number a statement uses. -/
def UpdateStmt.arity (stmt : UpdateStmt) : Nat :=
  (stmt.sets.map Prod.snd ++ [stmt.whereIdx]).foldl max 0

/-- Running `UPDATE devices SET ... WHERE id = $k RETURNING ...`: `none` when the
driver rejects the statement (argument count different from the number of
placeholders, a missing or ill-typed argument), otherwise the returned rows and
the new store. -/
def execUpdate (st : Store) (stmt : UpdateStmt) : Option (List DeviceRow × Store) :=
  if stmt.args.length ≠ stmt.arity then none
  else
    match bindSets stmt.args stmt.sets, placeholder stmt.args stmt.whereIdx with
    | some bound, some (Value.int id) =>
      let rows := st.devices.map (fun r => if r.id == id then bound.foldl assign r else r)
      some (rows.filter (fun r => r.id == id), { st with devices := rows })
    | _, _ => none

/-- The text of the driver error for a rejected statement. -/
def ErrBadStatement : String := "statement rejected"

namespace DB

/-- `DB.UpdateDevice`. `fault1` is the outcome of the existence check, `fault2` that
of the `UPDATE` round trip. -/
def UpdateDevice (st : Store) (fault1 fault2 : Option String) (now : Nat) (id : Int)
    (s : DeviceUpdate) : Except String Device × Store :=
  match GetDeviceByID st fault1 id with
  | .error e => (.error e, st)
  | .ok _ =>
    let stmt := buildUpdate now id s
    match fault2 with
    | some e => (.error ("error updating device: " ++ e), st)
    | none =>
      match execUpdate st stmt with
      | none => (.error ("error updating device: " ++ ErrBadStatement), st)
      | some ([], st') => (.error ("error updating device: " ++ ErrNoRows), st')
      | some (r :: _, st') => (.ok (scanDevice r), st')

/-- `DB.DeleteDevice`: `DELETE FROM devices WHERE id = $1`; an error when no row
was affected. -/
def DeleteDevice (st : Store) (fault : Option String) (id : Int) : Option String × Store :=
  match fault with
  | some e => (some ("error deleting device: " ++ e), st)
  | none =>
    let st' := { st with devices := st.devices.filter (fun r => !(r.id == id)) }
    if (st.devices.filter (fun r => r.id == id)).length = 0 then
      (some "device not found", st')
    else (none, st')

/-- `DB.GetDevicesAttributes`:
`SELECT ... FROM devices_attributes WHERE device_id = $1 ORDER BY id`. -/
def GetDevicesAttributes (st : Store) (fault : Option String) (deviceId : Int) :
    Except String (List DeviceAttribute) :=
  match fault with
  | some e => .error ("error querying device attribute: " ++ e)
  | none => .ok (orderAttrsById (st.attrs.filter (fun a => a.DeviceID == deviceId)))

/-- `DB.CreateDeviceAttribute`: `INSERT INTO devices_attributes (device_id, key, value)
VALUES ($1, $2, $3) RETURNING ...`; the id of the argument is not used. -/
def CreateDeviceAttribute (st : Store) (fault : Option String) (s : DeviceAttribute) :
    Except String DeviceAttribute × Store :=
  match fault with
  | some e => (.error ("error creating device attribute: " ++ e), st)
  | none =>
    let attr : DeviceAttribute :=
      { ID := st.attrSeq, DeviceID := s.DeviceID, Key := s.Key, Value := s.Value }
    (.ok attr, { st with attrs := st.attrs ++ [attr], attrSeq := st.attrSeq + 1 })

/-- `DB.DeleteDeviceAttributes`: `DELETE FROM devices_attributes WHERE device_id = $1`;
an error when no row was affected. -/
def DeleteDeviceAttributes (st : Store) (fault : Option String) (deviceId : Int) :
    Option String × Store :=
  match fault with
  | some e => (some ("error deleting device attributes: " ++ e), st)
  | none =>
    let st' := { st with attrs := st.attrs.filter (fun a => !(a.DeviceID == deviceId)) }
    if (st.attrs.filter (fun a => a.DeviceID == deviceId)).length = 0 then
      (some "device attributes not found", st')
    else (none, st')

end DB

/-! ## handlers/devices.go -/

/-- What a handler passes to `c.JSON`: `gin.H` with an `error` or a `message` key, a
device, or a slice of devices. -/
inductive Body where
  | error (msg : String)
  | message (msg : String)
  | device (d : Device)
  | devices (ds : List Device)
  deriving DecidableEq, Repr

/-- The response side of a `gin.Context`: the `c.JSON(code, obj)` calls made so far,
oldest first. -/
structure Ctx where
  writes : List (Nat × Body)
  deriving DecidableEq, Repr

/-- A fresh context. -/
def Ctx.new : Ctx := { writes := [] }

/-- The call `c.JSON(code, obj)`. -/
def Ctx.JSON (c : Ctx) (code : Nat) (obj : Body) : Ctx :=
  { writes := c.writes ++ [(code, obj)] }

/-- The status line of the HTTP response. `gin` sends the header with the first
write; a later `c.JSON` cannot change it any more (its `WriteHeader` is dropped
with the warning "Headers were already written"). -/
def Ctx.status (c : Ctx) : Option Nat :=
  c.writes.head?.map Prod.fst

/-- The documents of the HTTP response body: every `c.JSON` call appends one. -/
def Ctx.body (c : Ctx) : List Body :=
  c.writes.map Prod.snd

/-- The argument of the last `c.JSON` call, with its code. -/
def Ctx.last (c : Ctx) : Option (Nat × Body) :=
  c.writes.getLast?

/-- The `binding:"required"` tags of `models.DeviceCreate`: the names of the fields
holding their zero value, in declaration order. -/
def DeviceCreate.missing (m : DeviceCreate) : List String :=
  (if m.SerialNumber = "" then ["SerialNumber"] else []) ++
  (if m.DeviceModelID = 0 then ["DeviceModelID"] else []) ++
  (if m.HouseID = 0 then ["HouseID"] else []) ++
  (if m.Name = "" then ["Name"] else [])

/-- The `binding:"required"` tags of `models.DeviceUpdate`. -/
def DeviceUpdate.missing (m : DeviceUpdate) : List String :=
  (if m.SerialNumber = "" then ["SerialNumber"] else []) ++
  (if m.DeviceModelID = 0 then ["DeviceModelID"] else []) ++
  (if m.HouseID = 0 then ["HouseID"] else []) ++
  (if m.Name = "" then ["Name"] else [])

/-- The text of the validation error for a list of missing fields. -/
def requiredError (type : String) (fields : List String) : String :=
  "\n".intercalate (fields.map (fun f =>
    "Key: \x27" ++ type ++ "." ++ f ++ "\x27 Error:Field validation for \x27" ++ f ++
      "\x27 failed on the \x27required\x27 tag"))

/-- The call `c.ShouldBindJSON(&deviceCreate)` on a body that decoded to `body` (or
failed to decode): decoding, then the `required` validation. -/
def bindDeviceCreate (body : Except String DeviceCreate) : Except String DeviceCreate :=
  match body with
  | .error e => .error e
  | .ok m => if m.missing = [] then .ok m else .error (requiredError "DeviceCreate" m.missing)

/-- The call `c.ShouldBindJSON(&deviceUpdate)`. -/
def bindDeviceUpdate (body : Except String DeviceUpdate) : Except String DeviceUpdate :=
  match body with
  | .error e => .error e
  | .ok m => if m.missing = [] then .ok m else .error (requiredError "DeviceUpdate" m.missing)

namespace DeviceHandler

/-- The loop `for _, attr := range attrs` of `initDeviceAttributes`; the `k`-th store
call of the enclosing handler has outcome `fault k`. -/
def seedLoop (fault : Nat → Option String) :
    Nat → List DeviceAttribute → Store → Option String × Store
  | _, [], st => (none, st)
  | k, attr :: rest, st =>
    match DB.CreateDeviceAttribute st (fault k) attr with
    | (.error e, st1) => (some e, st1)
    | (.ok _, st1) => seedLoop fault (k + 1) rest st1

/-- The slice `attrs` that `initDeviceAttributes` builds. -/
def defaultAttrs (deviceId : Int) : List DeviceAttribute :=
  [{ ID := 0, DeviceID := deviceId, Key := "temperature", Value := "18.0" },
   { ID := 0, DeviceID := deviceId, Key := "humidity", Value := "30.0" }]

/-- `DeviceHandler.initDeviceAttributes`; its store calls are number `k`, `k + 1` of
the enclosing handler. -/
def initDeviceAttributes (st : Store) (fault : Nat → Option String) (k : Nat)
    (deviceId : Int) : Option String × Store :=
  seedLoop fault k (defaultAttrs deviceId) st

/-- The loop `for _, device := range devices` of `GetDevices`. The loop variable is
a copy of the slice element: the assignment `device.Attributes = attrs` changes
the copy, which the next iteration discards. -/
def attachLoop (st : Store) (fault : Nat → Option String) : Nat → List Device → Ctx → Ctx
  | _, [], c => c
  | k, device :: rest, c =>
    let (attrs, c1) :=
      match DB.GetDevicesAttributes st (fault k) device.ID with
      | .error _ => (([] : List DeviceAttribute), c.JSON 404 (.error "Device attributes not found"))
      | .ok attrs => (attrs, c)
    let _device : Device := { device with Attributes := attrs }
    attachLoop st fault (k + 1) rest c1

/-- `DeviceHandler.GetDevices`. `houseIdStr` is `c.Query("houseId")` and `atoi` the
result of `strconv.Atoi` on it (`none`: not a number). Store call 0 is the device
query, call `1 + i` the attribute query of the `i`-th device. -/
def GetDevices (st : Store) (fault : Nat → Option String) (houseIdStr : String)
    (atoi : Option Int) : Ctx :=
  let c := Ctx.new
  if houseIdStr = "" then c.JSON 400 (.error "houseId is required")
  else
    match atoi with
    | none => c.JSON 400 (.error "Invalid houseId")
    | some houseId =>
      match DB.GetDevicesByHouseId st (fault 0) houseId with
      | .error e => c.JSON 500 (.error e)
      | .ok devices =>
        let c1 := attachLoop st fault 1 devices c
        c1.JSON 200 (.devices devices)

/-- `DeviceHandler.GetDeviceByID`. `idParam` is the result of `strconv.Atoi` on the
path parameter. Store call 0 reads the device, call 1 its attributes. -/
def GetDeviceByID (st : Store) (fault : Nat → Option String) (idParam : Option Int) : Ctx :=
  let c := Ctx.new
  match idParam with
  | none => c.JSON 400 (.error "Invalid device ID")
  | some id =>
    match DB.GetDeviceByID st (fault 0) id with
    | .error _ => c.JSON 404 (.error "Device not found")
    | .ok device =>
      match DB.GetDevicesAttributes st (fault 1) id with
      | .error _ => c.JSON 404 (.error "Device attributes not found")
      | .ok attrs => c.JSON 200 (.device { device with Attributes := attrs })

/-- `DeviceHandler.CreateDevice`. Store call 0 inserts the device, calls 1 and 2
insert the two default attributes. -/
def CreateDevice (st : Store) (fault : Nat → Option String) (now : Nat)
    (body : Except String DeviceCreate) : Ctx × Store :=
  let c := Ctx.new
  match bindDeviceCreate body with
  | .error e => (c.JSON 400 (.error e), st)
  | .ok deviceCreate =>
    match DB.CreateDevice st (fault 0) now deviceCreate with
    | (.error e, st1) => (c.JSON 500 (.error e), st1)
    | (.ok device, st1) =>
      let (err, st2) := initDeviceAttributes st1 fault 1 device.ID
      let c1 :=
        match err with
        | some e => c.JSON 500 (.error e)
        | none => c
      (c1.JSON 201 (.device device), st2)

/-- `DeviceHandler.UpdateDevice`. Store calls 0 and 1 are those of `DB.UpdateDevice`,
call 2 deletes the attributes, calls 3 and 4 insert the two default attributes. -/
def UpdateDevice (st : Store) (fault : Nat → Option String) (now : Nat)
    (idParam : Option Int) (body : Except String DeviceUpdate) : Ctx × Store :=
  let c := Ctx.new
  match idParam with
  | none => (c.JSON 400 (.error "Invalid device ID"), st)
  | some id =>
    match bindDeviceUpdate body with
    | .error e => (c.JSON 400 (.error e), st)
    | .ok deviceUpdate =>
      match DB.UpdateDevice st (fault 0) (fault 1) now id deviceUpdate with
      | (.error e, st1) => (c.JSON 500 (.error e), st1)
      | (.ok device, st1) =>
        let (err2, st2) := DB.DeleteDeviceAttributes st1 (fault 2) device.ID
        let c1 :=
          match err2 with
          | some e => c.JSON 500 (.error e)
          | none => c
        let (err3, st3) := initDeviceAttributes st2 fault 3 device.ID
        let c2 :=
          match err3 with
          | some e => c1.JSON 500 (.error e)
          | none => c1
        (c2.JSON 200 (.device device), st3)

/-- `DeviceHandler.DeleteDevice`. Store call 0 deletes the attributes, call 1 the
device row. -/
def DeleteDevice (st : Store) (fault : Nat → Option String) (idParam : Option Int) :
    Ctx × Store :=
  let c := Ctx.new
  match idParam with
  | none => (c.JSON 400 (.error "Invalid device ID"), st)
  | some id =>
    let (err1, st1) := DB.DeleteDeviceAttributes st (fault 0) id
    let c1 :=
      match err1 with
      | some e => c.JSON 500 (.error e)
      | none => c
    match DB.DeleteDevice st1 (fault 1) id with
    | (some e, st2) => (c1.JSON 500 (.error e), st2)
    | (none, st2) => (c1.JSON 200 (.message "Device deleted successfully"), st2)

end DeviceHandler

/-! ## The gateway: smart_home/services -/

namespace Gateway

/-- The Go struct `services.DeviceAttribute`. -/
structure DeviceAttribute where
  ID : Int
  DeviceID : Int
  Key : String
  Value : String
  deriving DecidableEq, Repr

/-- The Go struct `services.DeviceResponse`. -/
structure DeviceResponse where
  ID : Int
  SerialNumber : String
  DeviceModelID : Int
  HouseID : Int
  Name : String
  Status : String
  Attributes : List DeviceAttribute
  LastUpdated : Nat
  CreatedAt : Nat
  deriving DecidableEq, Repr

/-- The Go struct `services.DeviceCreate`. -/
structure DeviceCreate where
  SerialNumber : String
  DeviceModelID : Int
  HouseID : Int
  Name : String
  deriving DecidableEq, Repr

/-- The Go struct `services.DeviceUpdate`. -/
structure DeviceUpdate where
  SerialNumber : String
  DeviceModelID : Int
  HouseID : Int
  Name : String
  deriving DecidableEq, Repr

/-- The Go struct `services.TelemetryMetric`. -/
structure TelemetryMetric where
  ID : String
  Key : String
  Value : String
  Unit : String
  deriving DecidableEq, Repr

/-- The Go struct `services.TelemetryResponse`. -/
structure TelemetryResponse where
  ID : String
  DeviceID : String
  CreatedAt : Nat
  Metric : List TelemetryMetric
  HouseID : String
  deriving DecidableEq, Repr

/-- An outgoing HTTP request: method, URL, `Content-Type` header ("" when unset) and
body ("" for none). -/
structure Request where
  Method : String
  URL : String
  ContentType : String
  Body : String
  deriving DecidableEq, Repr

/-- What the services read of an `http.Response`: the status code and the body. -/
structure Response where
  StatusCode : Int
  Body : String
  deriving DecidableEq, Repr

/-- The package `net/http` as the services use it. `validate method url` is the error
of `http.NewRequest` for a method and a URL, if any; `roundTrip` sends a request
through the `http.Client` of the service and yields the response, or the error of
the transport (unreachable upstream, the 10 second timeout). -/
structure Http where
  validate : String → String → Option String
  roundTrip : Request → Except String Response

/-- The call `http.NewRequest(method, url, body)`. -/
def Http.NewRequest (h : Http) (method url body : String) : Except String Request :=
  match h.validate method url with
  | some e => .error e
  | none => .ok { Method := method, URL := url, ContentType := "", Body := body }

/-- The call `client.Do(req)`. -/
def Http.Do (h : Http) (req : Request) : Except String Response :=
  h.roundTrip req

/-- The call `client.Get(url)`. -/
def Http.Get (h : Http) (url : String) : Except String Response :=
  match h.NewRequest "GET" url "" with
  | .error e => .error e
  | .ok req => h.Do req

/-- The call `client.Post(url, contentType, body)`. -/
def Http.Post (h : Http) (url contentType body : String) : Except String Response :=
  match h.NewRequest "POST" url body with
  | .error e => .error e
  | .ok req => h.Do { req with ContentType := contentType }

/-- The package `encoding/json` as the services use it: `json.Marshal` on the two
request models and `json.NewDecoder(body).Decode` into the three response shapes. -/
structure Json where
  MarshalCreate : DeviceCreate → Except String String
  MarshalUpdate : DeviceUpdate → Except String String
  DecodeDevice : String → Except String DeviceResponse
  DecodeDevices : String → Except String (List DeviceResponse)
  DecodeTelemetry : String → Except String (List TelemetryResponse)

/-- The Go struct `services.DeviceService`. -/
structure DeviceService where
  BaseURL : String
  HTTPClient : Http

/-- The Go struct `services.TelemetryService`. -/
structure TelemetryService where
  BaseURL : String
  HTTPClient : Http

/-- `DeviceService.GetDevicesByHouseId`. -/
def DeviceService.GetDevicesByHouseId (json : Json) (s : DeviceService) (houseId : String) :
    Except String (List DeviceResponse) :=
  let url := s.BaseURL ++ "/devices?houseId=" ++ houseId
  match s.HTTPClient.Get url with
  | .error err => .error ("error fetching device data: " ++ err)
  | .ok resp =>
    if resp.StatusCode ≠ 200 then
      .error ("unexpected status code: " ++ toString resp.StatusCode)
    else
      match json.DecodeDevices resp.Body with
      | .error err => .error ("error decoding device response: " ++ err)
      | .ok deviceResp => .ok deviceResp

/-- `DeviceService.GetDeviceByID`. -/
def DeviceService.GetDeviceByID (json : Json) (s : DeviceService) (deviceID : String) :
    Except String DeviceResponse :=
  let url := s.BaseURL ++ "/devices/" ++ deviceID
  match s.HTTPClient.Get url with
  | .error err => .error ("error fetching device data: " ++ err)
  | .ok resp =>
    if resp.StatusCode ≠ 200 then
      .error ("unexpected status code: " ++ toString resp.StatusCode)
    else
      match json.DecodeDevice resp.Body with
      | .error err => .error ("error decoding device response: " ++ err)
      | .ok deviceResp => .ok deviceResp

/-- `DeviceService.CreateDevice`. -/
def DeviceService.CreateDevice (json : Json) (s : DeviceService) (deviceCreate : DeviceCreate) :
    Except String DeviceResponse :=
  let url := s.BaseURL ++ "/devices"
  match json.MarshalCreate deviceCreate with
  | .error err => .error ("error marshaling device data: " ++ err)
  | .ok b =>
    match s.HTTPClient.Post url "application/json" b with
    | .error err => .error ("error post device data: " ++ err)
    | .ok resp =>
      if resp.StatusCode ≠ 200 ∧ resp.StatusCode ≠ 201 then
        .error ("unexpected status code: " ++ toString resp.StatusCode)
      else
        match json.DecodeDevice resp.Body with
        | .error err => .error ("error decoding device response: " ++ err)
        | .ok deviceResp => .ok deviceResp

/-- `DeviceService.UpdateDevice`. -/
def DeviceService.UpdateDevice (json : Json) (s : DeviceService) (deviceID : String)
    (deviceUpdate : DeviceUpdate) : Except String DeviceResponse :=
  let url := s.BaseURL ++ "/devices/" ++ deviceID
  match json.MarshalUpdate deviceUpdate with
  | .error err => .error ("error marshaling device data: " ++ err)
  | .ok b =>
    match s.HTTPClient.NewRequest "PUT" url b with
    | .error err => .error ("error creating PUT request: " ++ err)
    | .ok req =>
      match s.HTTPClient.Do { req with ContentType := "application/json" } with
      | .error err => .error ("error putting device data: " ++ err)
      | .ok resp =>
        if resp.StatusCode ≠ 200 then
          .error ("unexpected status code: " ++ toString resp.StatusCode)
        else
          match json.DecodeDevice resp.Body with
          | .error err => .error ("error decoding device response: " ++ err)
          | .ok deviceResp => .ok deviceResp

/-- `DeviceService.DeleteDevice`; `none` is the nil error. -/
def DeviceService.DeleteDevice (s : DeviceService) (deviceID : String) : Option String :=
  let url := s.BaseURL ++ "/devices/" ++ deviceID
  match s.HTTPClient.NewRequest "DELETE" url "" with
  | .error err => some ("error creating DELETE request: " ++ err)
  | .ok req =>
    match s.HTTPClient.Do req with
    | .error err => some ("error delete device: " ++ err)
    | .ok resp =>
      if resp.StatusCode ≠ 200 then
        some ("unexpected status code: " ++ toString resp.StatusCode)
      else none

/-- `TelemetryService.GetTelemetryByDeviceID`. -/
def TelemetryService.GetTelemetryByDeviceID (json : Json) (s : TelemetryService)
    (deviceID : String) : Except String (List TelemetryResponse) :=
  let url := s.BaseURL ++ "/telemetry/" ++ deviceID
  match s.HTTPClient.Get url with
  | .error err => .error ("error fetching telemetry data: " ++ err)
  | .ok resp =>
    if resp.StatusCode ≠ 200 then
      .error ("unexpected status code: " ++ toString resp.StatusCode)
    else
      match json.DecodeTelemetry resp.Body with
      | .error err => .error ("error decoding telemetry response: " ++ err)
      | .ok telemetryResp => .ok telemetryResp

/-! ## The gateway: smart_home/handlers -/

/-- What a gateway handler passes to `c.JSON`. -/
inductive Body where
  | error (msg : String)
  | message (msg : String)
  | device (d : DeviceResponse)
  | devices (ds : List DeviceResponse)
  | telemetry (ts : List TelemetryResponse)
  deriving DecidableEq, Repr

/-- The response side of the `gin.Context` of a gateway handler: its `c.JSON` calls,
oldest first. -/
structure Ctx where
  writes : List (Nat × Body)
  deriving DecidableEq, Repr

/-- A fresh context. -/
def Ctx.new : Ctx := { writes := [] }

/-- The call `c.JSON(code, obj)`. -/
def Ctx.JSON (c : Ctx) (code : Nat) (obj : Body) : Ctx :=
  { writes := c.writes ++ [(code, obj)] }

/-- The status line of the response: the code of the first write. -/
def Ctx.status (c : Ctx) : Option Nat :=
  c.writes.head?.map Prod.fst

/-- The documents of the response body. -/
def Ctx.body (c : Ctx) : List Body :=
  c.writes.map Prod.snd

/-- The `binding:"required"` tags of `services.DeviceCreate`. -/
def DeviceCreate.missing (m : DeviceCreate) : List String :=
  (if m.SerialNumber = "" then ["SerialNumber"] else []) ++
  (if m.DeviceModelID = 0 then ["DeviceModelID"] else []) ++
  (if m.HouseID = 0 then ["HouseID"] else []) ++
  (if m.Name = "" then ["Name"] else [])

/-- The `binding:"required"` tags of `services.DeviceUpdate`. -/
def DeviceUpdate.missing (m : DeviceUpdate) : List String :=
  (if m.SerialNumber = "" then ["SerialNumber"] else []) ++
  (if m.DeviceModelID = 0 then ["DeviceModelID"] else []) ++
  (if m.HouseID = 0 then ["HouseID"] else []) ++
  (if m.Name = "" then ["Name"] else [])

/-- The call `c.ShouldBindJSON(&deviceCreate)` of the gateway. -/
def bindDeviceCreate (body : Except String DeviceCreate) : Except String DeviceCreate :=
  match body with
  | .error e => .error e
  | .ok m => if m.missing = [] then .ok m else .error (requiredError "DeviceCreate" m.missing)

/-- The call `c.ShouldBindJSON(&deviceUpdate)` of the gateway. -/
def bindDeviceUpdate (body : Except String DeviceUpdate) : Except String DeviceUpdate :=
  match body with
  | .error e => .error e
  | .ok m => if m.missing = [] then .ok m else .error (requiredError "DeviceUpdate" m.missing)

/-- The Go struct `handlers.DeviceHandler` of the gateway. -/
structure DeviceHandler where
  DeviceService : DeviceService
  TelemetryService : TelemetryService

/-- `DeviceHandler.GetDevicesByHouseId`; `houseId` is `c.Query("houseId")`. -/
def DeviceHandler.GetDevicesByHouseId (json : Json) (h : DeviceHandler) (houseId : String) :
    Ctx :=
  let c := Ctx.new
  if houseId = "" then c.JSON 400 (.error "houseId is required")
  else
    match h.DeviceService.GetDevicesByHouseId json houseId with
    | .error err => c.JSON 500 (.error ("Failed to fetch data: " ++ err))
    | .ok resp => c.JSON 200 (.devices resp)

/-- `DeviceHandler.GetDeviceByID`; `id` is `c.Param("id")`. -/
def DeviceHandler.GetDeviceByID (json : Json) (h : DeviceHandler) (id : String) : Ctx :=
  let c := Ctx.new
  match h.DeviceService.GetDeviceByID json id with
  | .error err => c.JSON 500 (.error ("Failed to fetch data: " ++ err))
  | .ok resp => c.JSON 200 (.device resp)

/-- `DeviceHandler.GetTelemetry`. -/
def DeviceHandler.GetTelemetry (json : Json) (h : DeviceHandler) (id : String) : Ctx :=
  let c := Ctx.new
  match h.TelemetryService.GetTelemetryByDeviceID json id with
  | .error err => c.JSON 500 (.error ("Failed to fetch telemetry data: " ++ err))
  | .ok resp => c.JSON 200 (.telemetry resp)

/-- `DeviceHandler.CreateDevice`; `body` is the decoded request body, or the error
of decoding it. -/
def DeviceHandler.CreateDevice (json : Json) (h : DeviceHandler)
    (body : Except String DeviceCreate) : Ctx :=
  let c := Ctx.new
  match bindDeviceCreate body with
  | .error e => c.JSON 400 (.error e)
  | .ok deviceCreate =>
    match h.DeviceService.CreateDevice json deviceCreate with
    | .error err => c.JSON 500 (.error ("Failed to post data: " ++ err))
    | .ok resp => c.JSON 200 (.device resp)

/-- `DeviceHandler.UpdateDevice`. -/
def DeviceHandler.UpdateDevice (json : Json) (h : DeviceHandler) (id : String)
    (body : Except String DeviceUpdate) : Ctx :=
  let c := Ctx.new
  match bindDeviceUpdate body with
  | .error e => c.JSON 400 (.error e)
  | .ok deviceUpdate =>
    match h.DeviceService.UpdateDevice json id deviceUpdate with
    | .error err => c.JSON 500 (.error ("Failed to update data: " ++ err))
    | .ok resp => c.JSON 200 (.device resp)

/-- `DeviceHandler.DeleteDevice`. -/
def DeviceHandler.DeleteDevice (h : DeviceHandler) (id : String) : Ctx :=
  let c := Ctx.new
  match h.DeviceService.DeleteDevice id with
  | some err => c.JSON 500 (.error ("Failed to delete data: " ++ err))
  | none => c.JSON 200 (.message "Device deleted successfully")

end Gateway

/-! ## Specification-side definitions -/

/-- The number of placeholders of the statement for an update model: four, plus
one for each of `Name`, `SerialNumber` that is non-empty. -/
def updateArity (m : DeviceUpdate) : Nat :=
  4 + (if m.Name ≠ "" then 1 else 0) + (if m.SerialNumber ≠ "" then 1 else 0)

/-- The assignments of the update contract in the fixed field order: `last_updated`,
`name` if supplied, `serial_number` if supplied, `house_id`, `device_model_id`. -/
def updateAssignments (now : Nat) (m : DeviceUpdate) : List (Column × Value) :=
  [(Column.last_updated, Value.time now)] ++
  (if m.Name ≠ "" then [(Column.name, Value.text m.Name)] else []) ++
  (if m.SerialNumber ≠ "" then [(Column.serial_number, Value.text m.SerialNumber)] else []) ++
  [(Column.house_id, Value.int m.HouseID), (Column.device_model_id, Value.int m.DeviceModelID)]

/-- The row the partial-update contract promises for a row `r` and a model `m`. -/
def partialUpdate (now : Nat) (m : DeviceUpdate) (r : DeviceRow) : DeviceRow :=
  { r with
    last_updated := now
    name := if m.Name ≠ "" then m.Name else r.name
    serial_number := if m.SerialNumber ≠ "" then m.SerialNumber else r.serial_number
    house_id := m.HouseID
    device_model_id := m.DeviceModelID }

/-- The two default attribute rows of a device, as stored when the attribute
sequence stands at `first`: `temperature = "18.0"`, then `humidity = "30.0"`. -/
def seededAttrs (first deviceId : Int) : List DeviceAttribute :=
  [{ ID := first, DeviceID := deviceId, Key := "temperature", Value := "18.0" },
   { ID := first + 1, DeviceID := deviceId, Key := "humidity", Value := "30.0" }]

/-- The device row a creation stores for a model `m`: the next id of the device
sequence, the four fields of `m`, status `active`, both timestamps `now`. -/
def createdRow (st : Store) (now : Nat) (m : DeviceCreate) : DeviceRow :=
  { id := st.deviceSeq, device_model_id := m.DeviceModelID, house_id := m.HouseID,
    serial_number := m.SerialNumber, name := m.Name, status := DeviceStatusActive,
    last_updated := now, created_at := now }

/-- Every store call of a handler goes through. -/
def available : Nat → Option String := fun _ => none

/-- Well-formed stores: `id` is a key of both relations, the two sequences are
ahead of every id handed out, and no attribute row refers to a device id that the
device sequence has not handed out yet. Every handler flow keeps this. -/
def Store.WF (st : Store) : Prop :=
  (st.devices.map (fun r => r.id)).Nodup ∧
  (∀ r ∈ st.devices, r.id < st.deviceSeq) ∧
  (st.attrs.map (fun a => a.ID)).Nodup ∧
  (∀ a ∈ st.attrs, a.ID < st.attrSeq) ∧
  (∀ a ∈ st.attrs, a.DeviceID < st.deviceSeq)

instance (st : Store) : Decidable st.WF := by
  unfold Store.WF; infer_instance

/-- No attribute row is an orphan: its `DeviceID` is the id of a device row. -/
def Store.NoOrphan (st : Store) : Prop :=
  ∀ a ∈ st.attrs, ∃ r ∈ st.devices, r.id = a.DeviceID

instance (st : Store) : Decidable st.NoOrphan := by
  unfold Store.NoOrphan; infer_instance

/-- The store of a fresh deployment: no rows, both sequences at their first value. -/
def Store.initial : Store :=
  { devices := [], attrs := [], deviceSeq := 1, attrSeq := 1 }

/-! ## Example inputs -/

/-- A store with two devices; device 1 has the two default attributes and one
caller-set attribute, device 2 has none. -/
def exampleStore : Store :=
  { devices :=
      [{ id := 1, device_model_id := 1, house_id := 2, serial_number := "SN1",
         name := "Thermostat", status := "active", last_updated := 10, created_at := 10 },
       { id := 2, device_model_id := 3, house_id := 2, serial_number := "SN7",
         name := "Hygrometer", status := "inactive", last_updated := 15, created_at := 12 }]
    attrs :=
      [{ ID := 1, DeviceID := 1, Key := "temperature", Value := "18.0" },
       { ID := 2, DeviceID := 1, Key := "humidity", Value := "30.0" },
       { ID := 3, DeviceID := 1, Key := "mode", Value := "eco" }]
    deviceSeq := 3
    attrSeq := 4 }

/-- The first device row of `exampleStore`. -/
def exampleRow : DeviceRow :=
  { id := 1, device_model_id := 1, house_id := 2, serial_number := "SN1",
    name := "Thermostat", status := "active", last_updated := 10, created_at := 10 }

/-- An update model that leaves the name alone and rewrites the three other fields. -/
def exampleUpdate : DeviceUpdate :=
  { SerialNumber := "SN2", DeviceModelID := 0, HouseID := 5, Name := "" }

/-- A valid update body: every required field is present. -/
def exampleBody : DeviceUpdate :=
  { SerialNumber := "SN2", DeviceModelID := 1, HouseID := 2, Name := "Thermostat" }

/-- A valid creation body. -/
def exampleCreate : DeviceCreate :=
  { SerialNumber := "SN9", DeviceModelID := 4, HouseID := 2, Name := "Lamp" }

/-- A store with orphans: the three attribute rows of device 1 without the device
row. It is what the delete flow on device 1 of `exampleStore` leaves when the
attribute deletion is refused and the device deletion goes through. -/
def orphanStore : Store :=
  { devices :=
      [{ id := 2, device_model_id := 3, house_id := 2, serial_number := "SN7",
         name := "Hygrometer", status := "inactive", last_updated := 15, created_at := 12 }]
    attrs :=
      [{ ID := 1, DeviceID := 1, Key := "temperature", Value := "18.0" },
       { ID := 2, DeviceID := 1, Key := "humidity", Value := "30.0" },
       { ID := 3, DeviceID := 1, Key := "mode", Value := "eco" }]
    deviceSeq := 3
    attrSeq := 4 }

/-- An upstream that accepts every request and answers it with the given status
code and body. -/
def Gateway.upstreamAnswering (code : Int) (body : String) : Gateway.Http :=
  { validate := fun _ _ => none
    roundTrip := fun _ => .ok { StatusCode := code, Body := body } }

/-- An upstream that does not answer within the timeout of the client. -/
def Gateway.upstreamTimeout : Gateway.Http :=
  { validate := fun _ _ => none
    roundTrip := fun _ =>
      .error "context deadline exceeded (Client.Timeout exceeded while awaiting headers)" }

/-- A device as an upstream body may decode to. -/
def Gateway.exampleDevice : Gateway.DeviceResponse :=
  { ID := 1, SerialNumber := "SN1", DeviceModelID := 1, HouseID := 2, Name := "Thermostat",
    Status := "active", Attributes := [], LastUpdated := 10, CreatedAt := 10 }

/-- A codec that marshals every model, rejects the empty body with `EOF` and decodes
every other body to fixed values. -/
def Gateway.exampleJson : Gateway.Json :=
  { MarshalCreate := fun _ => .ok "create"
    MarshalUpdate := fun _ => .ok "update"
    DecodeDevice := fun b => if b = "" then .error "EOF" else .ok Gateway.exampleDevice
    DecodeDevices := fun b => if b = "" then .error "EOF" else .ok [Gateway.exampleDevice]
    DecodeTelemetry := fun b => if b = "" then .error "EOF" else .ok [] }

/-- A gateway whose two clients talk to the given upstreams. -/
def Gateway.exampleHandler (devices telemetry : Gateway.Http) : Gateway.DeviceHandler :=
  { DeviceService := { BaseURL := "http://device-api:8082/api/v1", HTTPClient := devices }
    TelemetryService := { BaseURL := "http://telemetry-api:8083", HTTPClient := telemetry } }

/-- A valid creation body of the gateway. -/
def Gateway.exampleCreate : Gateway.DeviceCreate :=
  { SerialNumber := "SN9", DeviceModelID := 4, HouseID := 2, Name := "Lamp" }

/-- A valid update body of the gateway. -/
def Gateway.exampleUpdate : Gateway.DeviceUpdate :=
  { SerialNumber := "SN2", DeviceModelID := 1, HouseID := 2, Name := "Thermostat" }

/-- The store calls of a handler in which call 0 is refused by the driver and every
other call goes through. -/
def firstCallDown : Nat → Option String :=
  fun k => if k = 0 then some "connection refused" else none

/-- The store calls of a handler in which call 1 is refused by the driver and every
other call goes through. -/
def secondCallDown : Nat → Option String :=
  fun k => if k = 1 then some "connection refused" else none

/-! ## The update statement -/

theorem updateAssignments_foldl (now : Nat) (m : DeviceUpdate) (r : DeviceRow) :
    (updateAssignments now m).foldl assign r = partialUpdate now m r := by
  by_cases h1 : m.Name = "" <;> by_cases h2 : m.SerialNumber = "" <;>
    simp [updateAssignments, partialUpdate, assign, h1, h2]

theorem partialUpdate_id (now : Nat) (m : DeviceUpdate) (r : DeviceRow) :
    (partialUpdate now m r).id = r.id := rfl

theorem buildUpdate_facts (now : Nat) (id : Int) (m : DeviceUpdate) :
    (buildUpdate now id m).sets.map Prod.fst = (updateAssignments now m).map Prod.fst ∧
    (buildUpdate now id m).sets.map Prod.snd ++ [(buildUpdate now id m).whereIdx]
      = List.range' 1 (updateArity m) ∧
    (buildUpdate now id m).args = (updateAssignments now m).map Prod.snd ++ [Value.int id] ∧
    (buildUpdate now id m).args.length = updateArity m ∧
    bindSets (buildUpdate now id m).args (buildUpdate now id m).sets
      = some (updateAssignments now m) ∧
    placeholder (buildUpdate now id m).args (buildUpdate now id m).whereIdx
      = some (Value.int id) ∧
    (buildUpdate now id m).whereIdx = updateArity m ∧
    (buildUpdate now id m).args.getLast? = some (Value.int id) ∧
    (buildUpdate now id m).query
      = renderUpdate (buildUpdate now id m).sets (buildUpdate now id m).whereIdx ∧
    (buildUpdate now id m).query =
      "UPDATE devices SET last_updated = $1" ++
      (if m.Name ≠ "" then ", name = $2" else "") ++
      (if m.SerialNumber ≠ "" then
        (if m.Name ≠ "" then ", serial_number = $3" else ", serial_number = $2") else "") ++
      ", house_id = $" ++ toString (updateArity m - 2) ++
      ", device_model_id = $" ++ toString (updateArity m - 1) ++
      " WHERE id = $" ++ toString (updateArity m) ++
      "\n\t\tRETURNING id, device_model_id, house_id, serial_number, name, status, last_updated, created_at" ∧
    (updateArity m = 4 ∨ updateArity m = 5 ∨ updateArity m = 6) := by
  by_cases h1 : m.Name = "" <;> by_cases h2 : m.SerialNumber = "" <;>
    simp [buildUpdate, UpdateBuilder.addSet, updateAssignments, updateArity, h1, h2,
      bindSets, placeholder, Column.accepts, List.range'] <;> (try constructor) <;> rfl

theorem execUpdate_buildUpdate (st : Store) (now : Nat) (id : Int) (m : DeviceUpdate) :
    execUpdate st (buildUpdate now id m) =
      some ((st.devices.map (fun r => if r.id == id then partialUpdate now m r else r)).filter
              (fun r => r.id == id),
            { st with devices :=
                st.devices.map (fun r => if r.id == id then partialUpdate now m r else r) }) := by
  obtain ⟨_, h2, _, h4, h5, h6, _⟩ := buildUpdate_facts now id m
  have harity : (buildUpdate now id m).arity = updateArity m := by
    unfold UpdateStmt.arity
    rw [h2]
    by_cases h1 : m.Name = "" <;> by_cases h2 : m.SerialNumber = "" <;>
      simp [updateArity, h1, h2, List.range']
  unfold execUpdate
  rw [h4, harity, h5, h6]
  simp [updateAssignments_foldl]

/-- CLAIM C2. The statement `UpdateDevice` builds assigns the columns in the fixed
order `last_updated`, `name` (only for a non-empty `Name`), `serial_number` (only for
a non-empty `SerialNumber`), `house_id`, `device_model_id`, followed by the `id`
predicate; the placeholders, read in that order, are `$1 .. $n`; there are exactly
`n` arguments, the `k`-th being the value for `$k`, the last being the id; `n` is
4, 5 or 6; and the text of the query spells exactly these clauses. -/
theorem buildUpdate_layout (now : Nat) (id : Int) (m : DeviceUpdate) :
    (buildUpdate now id m).sets.map Prod.fst = (updateAssignments now m).map Prod.fst ∧
    (buildUpdate now id m).sets.map Prod.snd ++ [(buildUpdate now id m).whereIdx]
      = List.range' 1 (updateArity m) ∧
    (buildUpdate now id m).args = (updateAssignments now m).map Prod.snd ++ [Value.int id] ∧
    (buildUpdate now id m).args.length = updateArity m ∧
    bindSets (buildUpdate now id m).args (buildUpdate now id m).sets
      = some (updateAssignments now m) ∧
    placeholder (buildUpdate now id m).args (buildUpdate now id m).whereIdx
      = some (Value.int id) ∧
    (buildUpdate now id m).whereIdx = updateArity m ∧
    (buildUpdate now id m).args.getLast? = some (Value.int id) ∧
    (buildUpdate now id m).query
      = renderUpdate (buildUpdate now id m).sets (buildUpdate now id m).whereIdx ∧
    (buildUpdate now id m).query =
      "UPDATE devices SET last_updated = $1" ++
      (if m.Name ≠ "" then ", name = $2" else "") ++
      (if m.SerialNumber ≠ "" then
        (if m.Name ≠ "" then ", serial_number = $3" else ", serial_number = $2") else "") ++
      ", house_id = $" ++ toString (updateArity m - 2) ++
      ", device_model_id = $" ++ toString (updateArity m - 1) ++
      " WHERE id = $" ++ toString (updateArity m) ++
      "\n\t\tRETURNING id, device_model_id, house_id, serial_number, name, status, last_updated, created_at" ∧
    (updateArity m = 4 ∨ updateArity m = 5 ∨ updateArity m = 6) :=
  buildUpdate_facts now id m

/-! ## Lists of rows -/

theorem filter_map_update (l : List DeviceRow) (id : Int) (f : DeviceRow → DeviceRow)
    (hf : ∀ r, (f r).id = r.id) :
    (l.map (fun r => if r.id == id then f r else r)).filter (fun r => r.id == id)
      = (l.filter (fun r => r.id == id)).map f := by
  induction l with
  | nil => rfl
  | cons a t ih =>
    by_cases h : a.id = id
    · simpa [List.filter_cons, h, hf] using ih
    · simpa [List.filter_cons, h] using ih

theorem map_update_ids (l : List DeviceRow) (id : Int) (f : DeviceRow → DeviceRow)
    (hf : ∀ r, (f r).id = r.id) :
    (l.map (fun r => if r.id == id then f r else r)).map (fun r => r.id)
      = l.map (fun r => r.id) := by
  induction l with
  | nil => rfl
  | cons a t ih =>
    by_cases h : a.id = id
    · simpa [h, hf] using ih
    · simpa [h] using ih

theorem filter_key_eq_singleton {l : List DeviceRow} {d : DeviceRow}
    (hpk : (l.map (fun r => r.id)).Nodup) (hd : d ∈ l) :
    l.filter (fun r => r.id == d.id) = [d] := by
  induction l with
  | nil => cases hd
  | cons a t ih =>
    simp only [List.map_cons, List.nodup_cons, List.mem_map, not_exists, not_and] at hpk
    rcases List.mem_cons.mp hd with rfl | hmem
    · have : t.filter (fun r => r.id == d.id) = [] := by
        apply List.filter_eq_nil_iff.mpr
        intro r hr hEq
        exact hpk.1 r hr (by simpa using hEq)
      simp [List.filter_cons, this]
    · have hne : a.id ≠ d.id := fun h => hpk.1 d hmem h.symm
      simp [List.filter_cons, hne, ih hpk.2 hmem]

theorem find_key_of_mem {l : List DeviceRow} {d : DeviceRow}
    (hpk : (l.map (fun r => r.id)).Nodup) (hd : d ∈ l) :
    l.find? (fun r => r.id == d.id) = some d := by
  induction l with
  | nil => cases hd
  | cons a t ih =>
    simp only [List.map_cons, List.nodup_cons, List.mem_map, not_exists, not_and] at hpk
    rcases List.mem_cons.mp hd with rfl | hmem
    · simp
    · have hne : a.id ≠ d.id := fun h => hpk.1 d hmem h.symm
      simp [List.find?_cons, hne, ih hpk.2 hmem]

theorem map_update_eq_of_key {l : List DeviceRow} {d : DeviceRow} (f : DeviceRow → DeviceRow)
    (hpk : (l.map (fun r => r.id)).Nodup) (hd : d ∈ l) :
    l.map (fun r => if r.id == d.id then f r else r)
      = l.map (fun r => if r = d then f d else r) := by
  apply List.map_congr_left
  intro r hr
  by_cases h : r = d
  · subst h; simp
  · have hne : r.id ≠ d.id := by
      intro hEq
      have h1 := find_key_of_mem hpk hd
      have h2 := find_key_of_mem hpk hr
      rw [hEq, h1] at h2
      exact h (Option.some.inj h2).symm
    simp [h, hne]

/-! ## The store accessor `UpdateDevice` -/

theorem UpdateDevice_of_mem (st : Store) (d : DeviceRow) (now : Nat) (m : DeviceUpdate)
    (hpk : (st.devices.map (fun r => r.id)).Nodup) (hd : d ∈ st.devices) :
    DB.UpdateDevice st none none now d.id m =
      (.ok (scanDevice (partialUpdate now m d)),
        { st with devices :=
            st.devices.map (fun r => if r.id == d.id then partialUpdate now m r else r) }) := by
  unfold DB.UpdateDevice DB.GetDeviceByID
  simp only [find_key_of_mem hpk hd, execUpdate_buildUpdate]
  rw [filter_map_update _ _ _ (partialUpdate_id now m), filter_key_eq_singleton hpk hd]
  rfl

/-- CLAIM C1. On a store whose device ids are a key, for every device row `d` of the
store and every update model `m`, `DB.UpdateDevice (d.id, m)` succeeds; the row it
returns is the row now stored in place of `d` (the other rows and the attributes
are untouched), with `name`/`serial_number` taken from `m` when non-empty and from
`d` otherwise, `house_id` and `device_model_id` taken from `m` whatever their
values, and `id`, `status`, `created_at` the same as in `d`. -/
theorem UpdateDevice_partial_update (st : Store) (d : DeviceRow) (now : Nat) (m : DeviceUpdate)
    (hpk : (st.devices.map (fun r => r.id)).Nodup) (hd : d ∈ st.devices) :
    ∃ row st',
      DB.UpdateDevice st none none now d.id m = (.ok (scanDevice row), st') ∧
      st'.devices = st.devices.map (fun r => if r = d then row else r) ∧
      row ∈ st'.devices ∧
      st'.attrs = st.attrs ∧
      row.name = (if m.Name ≠ "" then m.Name else d.name) ∧
      row.serial_number = (if m.SerialNumber ≠ "" then m.SerialNumber else d.serial_number) ∧
      row.house_id = m.HouseID ∧
      row.device_model_id = m.DeviceModelID ∧
      row.id = d.id ∧ row.status = d.status ∧ row.created_at = d.created_at := by
  refine ⟨partialUpdate now m d, _, UpdateDevice_of_mem st d now m hpk hd, ?_, ?_,
    rfl, rfl, rfl, rfl, rfl, rfl, rfl, rfl⟩
  · exact map_update_eq_of_key (partialUpdate now m) hpk hd
  · show partialUpdate now m d ∈
      st.devices.map (fun r => if r.id == d.id then partialUpdate now m r else r)
    exact List.mem_map.mpr ⟨d, hd, by simp⟩

theorem UpdateDevice_partial_update_witness :
    (exampleStore.devices.map (fun r => r.id)).Nodup ∧ exampleRow ∈ exampleStore.devices ∧
    ∃ row st',
      DB.UpdateDevice exampleStore none none 20 exampleRow.id exampleUpdate
        = (.ok (scanDevice row), st') ∧
      st'.devices = exampleStore.devices.map (fun r => if r = exampleRow then row else r) ∧
      row ∈ st'.devices ∧
      st'.attrs = exampleStore.attrs ∧
      row.name = (if exampleUpdate.Name ≠ "" then exampleUpdate.Name else exampleRow.name) ∧
      row.serial_number =
        (if exampleUpdate.SerialNumber ≠ "" then exampleUpdate.SerialNumber
         else exampleRow.serial_number) ∧
      row.house_id = exampleUpdate.HouseID ∧
      row.device_model_id = exampleUpdate.DeviceModelID ∧
      row.id = exampleRow.id ∧ row.status = exampleRow.status ∧
      row.created_at = exampleRow.created_at :=
  ⟨by decide, by decide,
    UpdateDevice_partial_update exampleStore exampleRow 20 exampleUpdate (by decide) (by decide)⟩

/-! ## Seeding and deleting attributes -/

theorem initDeviceAttributes_ok (st : Store) (fault : Nat → Option String) (k : Nat)
    (deviceId : Int) (h1 : fault k = none) (h2 : fault (k + 1) = none) :
    DeviceHandler.initDeviceAttributes st fault k deviceId =
      (none, { st with attrs := st.attrs ++ seededAttrs st.attrSeq deviceId
                       attrSeq := st.attrSeq + 2 }) := by
  simp [DeviceHandler.initDeviceAttributes, DeviceHandler.seedLoop, DeviceHandler.defaultAttrs,
    DB.CreateDeviceAttribute, h1, h2, seededAttrs, add_assoc]

theorem DeleteDeviceAttributes_store (st : Store) (deviceId : Int) :
    (DB.DeleteDeviceAttributes st none deviceId).2 =
      { st with attrs := st.attrs.filter (fun a => !(a.DeviceID == deviceId)) } := by
  unfold DB.DeleteDeviceAttributes
  simp only
  split <;> rfl

theorem DeleteDeviceAttributes_error_iff (st : Store) (deviceId : Int) :
    (DB.DeleteDeviceAttributes st none deviceId).1 = some "device attributes not found" ↔
      ∀ a ∈ st.attrs, a.DeviceID ≠ deviceId := by
  unfold DB.DeleteDeviceAttributes
  simp only [List.length_eq_zero, List.filter_eq_nil_iff]
  split <;> simp_all

theorem DeleteDeviceAttributes_ok_of_mem (st : Store) (deviceId : Int)
    (h : ∃ a ∈ st.attrs, a.DeviceID = deviceId) :
    (DB.DeleteDeviceAttributes st none deviceId).1 = none := by
  unfold DB.DeleteDeviceAttributes
  simp only [List.length_eq_zero, List.filter_eq_nil_iff]
  obtain ⟨a, ha, hEq⟩ := h
  split
  · rename_i hnil
    exact absurd (by simpa using hEq) (hnil a ha)
  · rfl

theorem orderAttrsById_seeded (first deviceId : Int) :
    orderAttrsById (seededAttrs first deviceId) = seededAttrs first deviceId := by
  simp [orderAttrsById, seededAttrs, List.insertionSort, List.orderedInsert]

theorem filter_seeded (first deviceId : Int) :
    (seededAttrs first deviceId).filter (fun a => a.DeviceID == deviceId)
      = seededAttrs first deviceId := by
  simp [seededAttrs]

/-! ## The update flow -/

theorem UpdateDevice_flow (st : Store) (d : DeviceRow) (now : Nat) (m : DeviceUpdate)
    (hpk : (st.devices.map (fun r => r.id)).Nodup) (hd : d ∈ st.devices)
    (hm : m.missing = []) :
    (DeviceHandler.UpdateDevice st available now (some d.id) (.ok m)).2 =
      { devices := st.devices.map (fun r => if r.id == d.id then partialUpdate now m r else r)
        attrs := st.attrs.filter (fun a => !(a.DeviceID == d.id)) ++ seededAttrs st.attrSeq d.id
        deviceSeq := st.deviceSeq
        attrSeq := st.attrSeq + 2 } ∧
    (DeviceHandler.UpdateDevice st available now (some d.id) (.ok m)).1.last =
      some (200, Body.device (scanDevice (partialUpdate now m d))) := by
  have hdel := DeleteDeviceAttributes_store
    { st with devices :=
        st.devices.map (fun r => if r.id == d.id then partialUpdate now m r else r) } d.id
  unfold DeviceHandler.UpdateDevice
  simp only [bindDeviceUpdate, hm, if_true, available, UpdateDevice_of_mem st d now m hpk hd,
    show (scanDevice (partialUpdate now m d)).ID = d.id from rfl]
  rcases hE : DB.DeleteDeviceAttributes
    { st with devices :=
        st.devices.map (fun r => if r.id == d.id then partialUpdate now m r else r) }
    none d.id with ⟨err2, st2⟩
  rw [hE] at hdel
  simp only at hdel
  subst hdel
  simp only [initDeviceAttributes_ok _ available 3 d.id rfl rfl]
  refine ⟨trivial, ?_⟩
  cases err2 <;> simp [Ctx.last, Ctx.JSON, Ctx.new]

/-- CLAIM C3. On a well-formed store, for every device row `d` and every valid update
body, after the `UpdateDevice` handler flow with every store call available the
flow has completed (its last write is the 200 with the updated device), the
attribute rows of the device, as stored and as `GetDevicesAttributes` reads them,
are exactly the two defaults `temperature = "18.0"`, `humidity = "30.0"` (with
fresh ids), no attribute row the device had before is left, and the attribute
rows of the other devices are untouched. -/
theorem UpdateDevice_resets_attributes (st : Store) (d : DeviceRow) (now : Nat)
    (m : DeviceUpdate) (hwf : st.WF) (hd : d ∈ st.devices) (hm : m.missing = []) :
    (DeviceHandler.UpdateDevice st available now (some d.id) (.ok m)).1.last =
      some (200, Body.device (scanDevice (partialUpdate now m d))) ∧
    (DeviceHandler.UpdateDevice st available now (some d.id) (.ok m)).2.attrs.filter
        (fun a => a.DeviceID == d.id) = seededAttrs st.attrSeq d.id ∧
    DB.GetDevicesAttributes (DeviceHandler.UpdateDevice st available now (some d.id) (.ok m)).2
        none d.id = .ok (seededAttrs st.attrSeq d.id) ∧
    (∀ a ∈ st.attrs, a.DeviceID = d.id →
      a ∉ (DeviceHandler.UpdateDevice st available now (some d.id) (.ok m)).2.attrs) ∧
    (DeviceHandler.UpdateDevice st available now (some d.id) (.ok m)).2.attrs.filter
        (fun a => !(a.DeviceID == d.id)) = st.attrs.filter (fun a => !(a.DeviceID == d.id)) := by
  obtain ⟨hpk, _, _, hlt, _⟩ := hwf
  obtain ⟨hst, hlast⟩ := UpdateDevice_flow st d now m hpk hd hm
  have hfilter : (st.attrs.filter (fun a => !(a.DeviceID == d.id)) ++
      seededAttrs st.attrSeq d.id).filter (fun a => a.DeviceID == d.id)
        = seededAttrs st.attrSeq d.id := by
    rw [List.filter_append, filter_seeded, List.filter_filter]
    simp
  refine ⟨hlast, ?_, ?_, ?_, ?_⟩
  · rw [hst]; exact hfilter
  · rw [hst]
    simp only [DB.GetDevicesAttributes, hfilter, orderAttrsById_seeded]
  · intro a ha hEq hmem
    rw [hst] at hmem
    rcases List.mem_append.mp hmem with h | h
    · simp [hEq] at h
    · have := hlt a ha
      simp only [seededAttrs, List.mem_cons, List.mem_singleton, List.not_mem_nil,
        or_false] at h
      rcases h with rfl | rfl <;> simp at this
  · rw [hst]
    simp [List.filter_append, List.filter_filter, seededAttrs]

theorem UpdateDevice_resets_attributes_witness :
    exampleStore.WF ∧ exampleRow ∈ exampleStore.devices ∧ exampleBody.missing = [] ∧
    (DeviceHandler.UpdateDevice exampleStore available 20 (some exampleRow.id)
        (.ok exampleBody)).2.attrs.filter (fun a => a.DeviceID == exampleRow.id)
      = seededAttrs exampleStore.attrSeq exampleRow.id :=
  ⟨by decide, by decide, by decide,
    (UpdateDevice_resets_attributes exampleStore exampleRow 20 exampleBody
      (by decide) (by decide) (by decide)).2.1⟩

/-! ## The create flow -/

theorem CreateDevice_flow (st : Store) (now : Nat) (m : DeviceCreate) (hm : m.missing = []) :
    DeviceHandler.CreateDevice st available now (.ok m) =
      ({ writes := [(201, Body.device (scanDevice (createdRow st now m)))] },
        { devices := st.devices ++ [createdRow st now m]
          attrs := st.attrs ++ seededAttrs st.attrSeq st.deviceSeq
          deviceSeq := st.deviceSeq + 1
          attrSeq := st.attrSeq + 2 }) := by
  unfold DeviceHandler.CreateDevice
  simp only [bindDeviceCreate, hm, if_true, DB.CreateDevice,
    show available 0 = none from rfl]
  rw [initDeviceAttributes_ok _ available 1 _ rfl rfl]
  rfl

theorem find_fresh_device (st : Store) (row : DeviceRow)
    (hlt : ∀ r ∈ st.devices, r.id < row.id) :
    (st.devices ++ [row]).find? (fun r => r.id == row.id) = some row := by
  have hnone : st.devices.find? (fun r => r.id == row.id) = none := by
    apply List.find?_eq_none.mpr
    intro r hr hEq
    have := hlt r hr
    simp at hEq
    omega
  simp [List.find?_append, hnone]

theorem filter_fresh_attrs (st : Store) (hlt : ∀ a ∈ st.attrs, a.DeviceID < st.deviceSeq) :
    st.attrs.filter (fun a => a.DeviceID == st.deviceSeq) = [] := by
  apply List.filter_eq_nil_iff.mpr
  intro a ha hEq
  have := hlt a ha
  simp at hEq
  omega

/-- CLAIM C4. On a well-formed store, for every valid creation input (all required
fields present) and with every store call available, the `CreateDevice` handler
answers 201 with a device `d` carrying the next id, and the `GetDeviceByID` handler
on that id then answers 200 with `d`, status `active`, whose attributes are exactly
`temperature = "18.0"` followed by `humidity = "30.0"`, and nothing else. -/
theorem CreateDevice_then_GetDeviceByID (st : Store) (now : Nat) (m : DeviceCreate)
    (hwf : st.WF) (hm : m.missing = []) :
    ∃ d : Device,
      (DeviceHandler.CreateDevice st available now (.ok m)).1 =
        { writes := [(201, Body.device d)] } ∧
      d.ID = st.deviceSeq ∧
      d.Status = DeviceStatusActive ∧
      DeviceHandler.GetDeviceByID (DeviceHandler.CreateDevice st available now (.ok m)).2
          available (some d.ID) =
        { writes := [(200, Body.device
            { d with Attributes :=
                [{ ID := st.attrSeq, DeviceID := d.ID, Key := "temperature", Value := "18.0" },
                 { ID := st.attrSeq + 1, DeviceID := d.ID, Key := "humidity",
                   Value := "30.0" }] })] } := by
  obtain ⟨_, hdev, _, _, hattr⟩ := hwf
  refine ⟨scanDevice (createdRow st now m), ?_, rfl, rfl, ?_⟩
  · rw [CreateDevice_flow st now m hm]
  · rw [CreateDevice_flow st now m hm]
    have hfind : (st.devices ++ [createdRow st now m]).find? (fun r => r.id == st.deviceSeq)
        = some (createdRow st now m) := find_fresh_device st (createdRow st now m) hdev
    have hfil := filter_fresh_attrs st hattr
    unfold DeviceHandler.GetDeviceByID DB.GetDeviceByID DB.GetDevicesAttributes
    simp only [show available 0 = none from rfl, show available 1 = none from rfl,
      show (scanDevice (createdRow st now m)).ID = (createdRow st now m).id from rfl, hfind,
      List.filter_append, show (createdRow st now m).id = st.deviceSeq from rfl, hfil,
      filter_seeded, List.nil_append, orderAttrsById_seeded]
    rfl

theorem CreateDevice_then_GetDeviceByID_witness :
    exampleStore.WF ∧ exampleCreate.missing = [] ∧
    ∃ d : Device,
      (DeviceHandler.CreateDevice exampleStore available 30 (.ok exampleCreate)).1 =
        { writes := [(201, Body.device d)] } ∧
      d.ID = exampleStore.deviceSeq ∧
      d.Status = DeviceStatusActive ∧
      DeviceHandler.GetDeviceByID
          (DeviceHandler.CreateDevice exampleStore available 30 (.ok exampleCreate)).2
          available (some d.ID) =
        { writes := [(200, Body.device
            { d with Attributes :=
                [{ ID := exampleStore.attrSeq, DeviceID := d.ID, Key := "temperature",
                   Value := "18.0" },
                 { ID := exampleStore.attrSeq + 1, DeviceID := d.ID, Key := "humidity",
                   Value := "30.0" }] })] } :=
  ⟨by decide, by decide,
    CreateDevice_then_GetDeviceByID exampleStore 30 exampleCreate (by decide) (by decide)⟩

/-! ## The delete flow -/

theorem DeleteDevice_ok_of_mem (st : Store) (id : Int) (h : ∃ r ∈ st.devices, r.id = id) :
    DB.DeleteDevice st none id =
      (none, { st with devices := st.devices.filter (fun r => !(r.id == id)) }) := by
  unfold DB.DeleteDevice
  simp only [List.length_eq_zero, List.filter_eq_nil_iff]
  obtain ⟨r, hr, hEq⟩ := h
  split
  · rename_i hnil
    exact absurd (by simpa using hEq) (hnil r hr)
  · rfl

theorem DeleteDeviceAttributes_fault (st : Store) (e : String) (deviceId : Int) :
    DB.DeleteDeviceAttributes st (some e) deviceId =
      (some ("error deleting device attributes: " ++ e), st) := rfl

theorem GetDeviceByID_after_delete (devices : List DeviceRow) (id : Int) :
    (devices.filter (fun r => !(r.id == id))).find? (fun r => r.id == id) = none := by
  apply List.find?_eq_none.mpr
  intro r hr
  have := (List.mem_filter.mp hr).2
  simpa using this

/-- CLAIM C5. For every device that exists and has at least one attribute row, the
`DeleteDevice` handler flow (every store call available) answers 200 and leaves a
store with no device row and no attribute row of that device id, in which exactly
the rows of the other devices are kept, unchanged; reading the id afterwards fails
(`no rows` at the accessor, 404 at the handler). -/
theorem DeleteDevice_cascade (st : Store) (id : Int) (hd : ∃ r ∈ st.devices, r.id = id)
    (ha : ∃ a ∈ st.attrs, a.DeviceID = id) :
    DeviceHandler.DeleteDevice st available (some id) =
      ({ writes := [(200, Body.message "Device deleted successfully")] },
        { st with devices := st.devices.filter (fun r => !(r.id == id))
                  attrs := st.attrs.filter (fun a => !(a.DeviceID == id)) }) ∧
    (∀ r ∈ (DeviceHandler.DeleteDevice st available (some id)).2.devices, r.id ≠ id) ∧
    (∀ a ∈ (DeviceHandler.DeleteDevice st available (some id)).2.attrs, a.DeviceID ≠ id) ∧
    (∀ r ∈ st.devices, r.id ≠ id →
      r ∈ (DeviceHandler.DeleteDevice st available (some id)).2.devices) ∧
    (∀ a ∈ st.attrs, a.DeviceID ≠ id →
      a ∈ (DeviceHandler.DeleteDevice st available (some id)).2.attrs) ∧
    DB.GetDeviceByID (DeviceHandler.DeleteDevice st available (some id)).2 none id =
      .error ("error getting device by ID: " ++ ErrNoRows) ∧
    DeviceHandler.GetDeviceByID (DeviceHandler.DeleteDevice st available (some id)).2
      available (some id) = { writes := [(404, Body.error "Device not found")] } := by
  have hflow : DeviceHandler.DeleteDevice st available (some id) =
      ({ writes := [(200, Body.message "Device deleted successfully")] },
        { st with devices := st.devices.filter (fun r => !(r.id == id))
                  attrs := st.attrs.filter (fun a => !(a.DeviceID == id)) }) := by
    have h1 := DeleteDeviceAttributes_ok_of_mem st id ha
    have h2 := DeleteDeviceAttributes_store st id
    unfold DeviceHandler.DeleteDevice
    simp only [show available 0 = none from rfl, show available 1 = none from rfl]
    rcases hE : DB.DeleteDeviceAttributes st none id with ⟨err1, st1⟩
    rw [hE] at h1 h2
    simp only at h1 h2
    subst h1 h2
    simp only
    rw [DeleteDevice_ok_of_mem
      { st with attrs := st.attrs.filter (fun a => !(a.DeviceID == id)) } id hd]
    rfl
  rw [hflow]
  refine ⟨rfl, ?_, ?_, ?_, ?_, ?_, ?_⟩
  · intro r hr
    simpa using (List.mem_filter.mp hr).2
  · intro a ha'
    simpa using (List.mem_filter.mp ha').2
  · intro r hr hne
    exact List.mem_filter.mpr ⟨hr, by simpa using hne⟩
  · intro a ha' hne
    exact List.mem_filter.mpr ⟨ha', by simpa using hne⟩
  · simp only [DB.GetDeviceByID, GetDeviceByID_after_delete]
  · simp only [DeviceHandler.GetDeviceByID, DB.GetDeviceByID, GetDeviceByID_after_delete,
      show available 0 = none from rfl]
    rfl

theorem DeleteDevice_cascade_witness :
    (∃ r ∈ exampleStore.devices, r.id = 1) ∧ (∃ a ∈ exampleStore.attrs, a.DeviceID = 1) ∧
    (DeviceHandler.DeleteDevice exampleStore available (some 1)).2.devices =
      [{ id := 2, device_model_id := 3, house_id := 2, serial_number := "SN7",
         name := "Hygrometer", status := "inactive", last_updated := 15, created_at := 12 }] ∧
    (DeviceHandler.DeleteDevice exampleStore available (some 1)).2.attrs = [] ∧
    DeviceHandler.GetDeviceByID (DeviceHandler.DeleteDevice exampleStore available (some 1)).2
      available (some 1) = { writes := [(404, Body.error "Device not found")] } :=
  ⟨by decide, by decide, by decide, by decide,
    (DeleteDevice_cascade exampleStore 1 (by decide) (by decide)).2.2.2.2.2.2⟩

/-! ## Frame properties of the store accessors, under any outcome of the round trips -/

theorem DeleteDeviceAttributes_frame (st : Store) (f : Option String) (deviceId : Int) :
    (DB.DeleteDeviceAttributes st f deviceId).2.devices = st.devices ∧
    (∀ a ∈ (DB.DeleteDeviceAttributes st f deviceId).2.attrs, a ∈ st.attrs) ∧
    (f = none → ∀ a ∈ (DB.DeleteDeviceAttributes st f deviceId).2.attrs,
      a.DeviceID ≠ deviceId) := by
  cases f with
  | some e => exact ⟨rfl, fun a ha => ha, fun h => by cases h⟩
  | none =>
    rw [DeleteDeviceAttributes_store]
    refine ⟨rfl, fun a ha => (List.mem_filter.mp ha).1, fun _ a ha => ?_⟩
    simpa using (List.mem_filter.mp ha).2

theorem DeleteDevice_frame (st : Store) (f : Option String) (id : Int) :
    (DB.DeleteDevice st f id).2.attrs = st.attrs ∧
    (∀ r ∈ st.devices, r.id ≠ id → r ∈ (DB.DeleteDevice st f id).2.devices) ∧
    (f ≠ none → (DB.DeleteDevice st f id).2 = st) := by
  cases f with
  | some e => exact ⟨rfl, fun r hr _ => hr, fun _ => rfl⟩
  | none =>
    have hst : (DB.DeleteDevice st none id).2 =
        { st with devices := st.devices.filter (fun r => !(r.id == id)) } := by
      unfold DB.DeleteDevice
      simp only
      split <;> rfl
    rw [hst]
    exact ⟨rfl, fun r hr hne => List.mem_filter.mpr ⟨hr, by simpa using hne⟩,
      fun h => absurd rfl h⟩

theorem UpdateDevice_frame (st : Store) (f1 f2 : Option String) (now : Nat) (id : Int)
    (m : DeviceUpdate) :
    (DB.UpdateDevice st f1 f2 now id m).2.attrs = st.attrs ∧
    (DB.UpdateDevice st f1 f2 now id m).2.devices.map (fun r => r.id)
      = st.devices.map (fun r => r.id) ∧
    (∀ dev, (DB.UpdateDevice st f1 f2 now id m).1 = .ok dev →
      ∃ r ∈ (DB.UpdateDevice st f1 f2 now id m).2.devices, r.id = dev.ID) := by
  unfold DB.UpdateDevice
  cases hget : DB.GetDeviceByID st f1 id with
  | error e => exact ⟨rfl, rfl, fun dev h => by cases h⟩
  | ok d0 =>
    cases f2 with
    | some e => exact ⟨rfl, rfl, fun dev h => by cases h⟩
    | none =>
      simp only [execUpdate_buildUpdate]
      cases hrows : (st.devices.map
          (fun r => if r.id == id then partialUpdate now m r else r)).filter
          (fun r => r.id == id) with
      | nil =>
        exact ⟨rfl, map_update_ids _ _ _ (partialUpdate_id now m), fun dev h => by cases h⟩
      | cons r rest =>
        refine ⟨rfl, map_update_ids _ _ _ (partialUpdate_id now m), fun dev h => ?_⟩
        have hr : r ∈ (st.devices.map
            (fun r => if r.id == id then partialUpdate now m r else r)).filter
            (fun r => r.id == id) := by rw [hrows]; exact List.mem_cons_self _ _
        simp only at h
        cases h
        exact ⟨r, (List.mem_filter.mp hr).1, rfl⟩

theorem seedLoop_frame (fault : Nat → Option String) (attrs : List DeviceAttribute) :
    ∀ (k : Nat) (st : Store),
      (DeviceHandler.seedLoop fault k attrs st).2.devices = st.devices ∧
      ∀ a ∈ (DeviceHandler.seedLoop fault k attrs st).2.attrs,
        a ∈ st.attrs ∨ ∃ b ∈ attrs, a.DeviceID = b.DeviceID := by
  induction attrs with
  | nil => intro k st; exact ⟨rfl, fun a ha => Or.inl ha⟩
  | cons b rest ih =>
    intro k st
    cases hf : fault k with
    | some e =>
      have hstep : DeviceHandler.seedLoop fault k (b :: rest) st =
          (some ("error creating device attribute: " ++ e), st) := by
        simp [DeviceHandler.seedLoop, DB.CreateDeviceAttribute, hf]
      rw [hstep]
      exact ⟨rfl, fun a ha => Or.inl ha⟩
    | none =>
      have hstep : DeviceHandler.seedLoop fault k (b :: rest) st =
          DeviceHandler.seedLoop fault (k + 1) rest
            { st with attrs := st.attrs ++
                        [{ ID := st.attrSeq, DeviceID := b.DeviceID, Key := b.Key,
                           Value := b.Value }]
                      attrSeq := st.attrSeq + 1 } := by
        simp [DeviceHandler.seedLoop, DB.CreateDeviceAttribute, hf]
      rw [hstep]
      obtain ⟨h1, h2⟩ := ih (k + 1)
        { st with attrs := st.attrs ++
                    [{ ID := st.attrSeq, DeviceID := b.DeviceID, Key := b.Key,
                       Value := b.Value }]
                  attrSeq := st.attrSeq + 1 }
      refine ⟨h1, fun a ha => ?_⟩
      rcases h2 a ha with h | ⟨c, hc, hEq⟩
      · rcases List.mem_append.mp h with h | h
        · exact Or.inl h
        · simp only [List.mem_singleton] at h
          subst h
          exact Or.inr ⟨b, List.mem_cons_self _ _, rfl⟩
      · exact Or.inr ⟨c, List.mem_cons_of_mem _ hc, hEq⟩

theorem initDeviceAttributes_frame (st : Store) (fault : Nat → Option String) (k : Nat)
    (deviceId : Int) :
    (DeviceHandler.initDeviceAttributes st fault k deviceId).2.devices = st.devices ∧
    ∀ a ∈ (DeviceHandler.initDeviceAttributes st fault k deviceId).2.attrs,
      a ∈ st.attrs ∨ a.DeviceID = deviceId := by
  obtain ⟨h1, h2⟩ := seedLoop_frame fault (DeviceHandler.defaultAttrs deviceId) k st
  refine ⟨h1, fun a ha => ?_⟩
  rcases h2 a ha with h | ⟨b, hb, hEq⟩
  · exact Or.inl h
  · right
    simp only [DeviceHandler.defaultAttrs, List.mem_cons, List.mem_singleton,
      List.not_mem_nil, or_false] at hb
    rcases hb with rfl | rfl <;> exact hEq

/-! ## The no-orphan invariant -/

theorem NoOrphan_transfer {st st' : Store} (h : st.NoOrphan)
    (hd : ∀ r ∈ st.devices, ∃ r' ∈ st'.devices, r'.id = r.id)
    (ha : ∀ a ∈ st'.attrs, a ∈ st.attrs ∨ ∃ r ∈ st'.devices, r.id = a.DeviceID) :
    st'.NoOrphan := by
  intro a hmem
  rcases ha a hmem with hold | hnew
  · obtain ⟨r, hr, hEq⟩ := h a hold
    obtain ⟨r', hr', hEq'⟩ := hd r hr
    exact ⟨r', hr', hEq'.trans hEq⟩
  · exact hnew

theorem initDeviceAttributes_NoOrphan (st : Store) (fault : Nat → Option String) (k : Nat)
    (deviceId : Int) (h : st.NoOrphan) (hex : ∃ r ∈ st.devices, r.id = deviceId) :
    (DeviceHandler.initDeviceAttributes st fault k deviceId).2.NoOrphan := by
  obtain ⟨h1, h2⟩ := initDeviceAttributes_frame st fault k deviceId
  apply NoOrphan_transfer h
  · intro r hr
    exact ⟨r, by rw [h1]; exact hr, rfl⟩
  · intro a ha
    rcases h2 a ha with hold | hEq
    · exact Or.inl hold
    · obtain ⟨r, hr, hid⟩ := hex
      exact Or.inr ⟨r, by rw [h1]; exact hr, hid.trans hEq.symm⟩

theorem CreateDevice_NoOrphan (st : Store) (fault : Nat → Option String) (now : Nat)
    (body : Except String DeviceCreate) (h : st.NoOrphan) :
    (DeviceHandler.CreateDevice st fault now body).2.NoOrphan := by
  unfold DeviceHandler.CreateDevice
  cases hb : bindDeviceCreate body with
  | error e => exact h
  | ok m =>
    cases hf : fault 0 with
    | some e =>
      simp only [DB.CreateDevice]
      exact h
    | none =>
      simp only [DB.CreateDevice]
      apply initDeviceAttributes_NoOrphan
      · apply NoOrphan_transfer h
        · intro r hr
          exact ⟨r, List.mem_append_left _ hr, rfl⟩
        · intro a ha
          exact Or.inl ha
      · exact ⟨_, List.mem_append_right _ (List.mem_singleton_self _), rfl⟩

theorem mem_ids_of_map_eq {l l' : List DeviceRow}
    (hmap : l'.map (fun r => r.id) = l.map (fun r => r.id)) (r : DeviceRow) (hr : r ∈ l) :
    ∃ r' ∈ l', r'.id = r.id := by
  have : r.id ∈ l'.map (fun r => r.id) := by
    rw [hmap]; exact List.mem_map.mpr ⟨r, hr, rfl⟩
  obtain ⟨r', hr', hEq⟩ := List.mem_map.mp this
  exact ⟨r', hr', hEq⟩

theorem UpdateDevice_NoOrphan (st : Store) (fault : Nat → Option String) (now : Nat)
    (idParam : Option Int) (body : Except String DeviceUpdate) (h : st.NoOrphan) :
    (DeviceHandler.UpdateDevice st fault now idParam body).2.NoOrphan := by
  unfold DeviceHandler.UpdateDevice
  cases idParam with
  | none => exact h
  | some id =>
    cases hb : bindDeviceUpdate body with
    | error e => exact h
    | ok m =>
      obtain ⟨hattrs, hids, hret⟩ := UpdateDevice_frame st (fault 0) (fault 1) now id m
      have hupd : (DB.UpdateDevice st (fault 0) (fault 1) now id m).2.NoOrphan := by
        apply NoOrphan_transfer h
        · exact mem_ids_of_map_eq hids
        · intro a ha
          exact Or.inl (by rw [hattrs] at ha; exact ha)
      dsimp only
      rcases hE : DB.UpdateDevice st (fault 0) (fault 1) now id m with ⟨res, st1⟩
      rw [hE] at hret hupd
      cases res with
      | error e => exact hupd
      | ok device =>
        obtain ⟨hdev, hsub, _⟩ := DeleteDeviceAttributes_frame st1 (fault 2) device.ID
        dsimp only
        apply initDeviceAttributes_NoOrphan
        · apply NoOrphan_transfer hupd
          · intro r hr
            exact ⟨r, by rw [hdev]; exact hr, rfl⟩
          · intro a ha
            exact Or.inl (hsub a ha)
        · rw [hdev]
          exact hret device rfl

theorem DeleteDevice_NoOrphan (st : Store) (fault : Nat → Option String)
    (idParam : Option Int) (h : st.NoOrphan)
    (hstep : fault 0 = none ∨ fault 1 ≠ none ∨
      ∀ id, idParam = some id → ∀ a ∈ st.attrs, a.DeviceID ≠ id) :
    (DeviceHandler.DeleteDevice st fault idParam).2.NoOrphan := by
  unfold DeviceHandler.DeleteDevice
  cases idParam with
  | none => exact h
  | some id =>
    obtain ⟨hdev, hsub, hgone⟩ := DeleteDeviceAttributes_frame st (fault 0) id
    obtain ⟨hattrs, hkeep, hsame⟩ :=
      DeleteDevice_frame (DB.DeleteDeviceAttributes st (fault 0) id).2 (fault 1) id
    have hgoal : (DB.DeleteDevice (DB.DeleteDeviceAttributes st (fault 0) id).2
        (fault 1) id).2.NoOrphan := by
      intro a ha
      rw [hattrs] at ha
      obtain ⟨r, hr, hEq⟩ := h a (hsub a ha)
      rcases hstep with h0 | h1 | hno
      · have hne : r.id ≠ id := by rw [hEq]; exact hgone h0 a ha
        exact ⟨r, hkeep r (by rw [hdev]; exact hr) hne, hEq⟩
      · rw [hsame h1, hdev]
        exact ⟨r, hr, hEq⟩
      · have hne : r.id ≠ id := by rw [hEq]; exact hno id rfl a (hsub a ha)
        exact ⟨r, hkeep r (by rw [hdev]; exact hr) hne, hEq⟩
    dsimp only
    rcases hE2 : DB.DeleteDevice (DB.DeleteDeviceAttributes st (fault 0) id).2 (fault 1) id
      with ⟨err2, st2⟩
    rw [hE2] at hgoal
    cases err2 <;> exact hgoal

/-- CLAIM C6 (as stated, refuted). On `exampleStore`, which has no orphan, the
`DeleteDevice` handler flow on device 1 in which the attribute deletion is refused
by the driver and the device deletion goes through leaves the three attribute
rows of device 1 behind without a device row. -/
theorem DeleteDevice_leaves_orphans :
    exampleStore.NoOrphan ∧
    (DeviceHandler.DeleteDevice exampleStore firstCallDown (some 1)).2.attrs
      = exampleStore.attrs ∧
    (∀ r ∈ (DeviceHandler.DeleteDevice exampleStore firstCallDown (some 1)).2.devices,
      r.id ≠ 1) ∧
    ¬ (DeviceHandler.DeleteDevice exampleStore firstCallDown (some 1)).2.NoOrphan := by
  decide

/-- CLAIM C6 (amended). Starting from a store without orphans, the store after the
`CreateDevice` flow and after the `UpdateDevice` flow has no orphan, whatever the
request and whichever store calls fail; so has the store after the `DeleteDevice`
flow unless its attribute deletion is refused by the driver while its device
deletion goes through and the device has attribute rows. -/
theorem handlers_keep_NoOrphan (st : Store) (fault : Nat → Option String) (now : Nat)
    (createBody : Except String DeviceCreate) (idParam : Option Int)
    (updateBody : Except String DeviceUpdate) (h : st.NoOrphan) :
    (DeviceHandler.CreateDevice st fault now createBody).2.NoOrphan ∧
    (DeviceHandler.UpdateDevice st fault now idParam updateBody).2.NoOrphan ∧
    ((fault 0 = none ∨ fault 1 ≠ none ∨
        ∀ id, idParam = some id → ∀ a ∈ st.attrs, a.DeviceID ≠ id) →
      (DeviceHandler.DeleteDevice st fault idParam).2.NoOrphan) :=
  ⟨CreateDevice_NoOrphan st fault now createBody h,
    UpdateDevice_NoOrphan st fault now idParam updateBody h,
    DeleteDevice_NoOrphan st fault idParam h⟩

theorem handlers_keep_NoOrphan_witness :
    exampleStore.NoOrphan ∧
    (DeviceHandler.CreateDevice exampleStore secondCallDown 30 (.ok exampleCreate)).2.NoOrphan ∧
    (DeviceHandler.UpdateDevice exampleStore secondCallDown 30 (some 1)
      (.ok exampleBody)).2.NoOrphan ∧
    (DeviceHandler.DeleteDevice exampleStore secondCallDown (some 1)).2.NoOrphan :=
  have h := handlers_keep_NoOrphan exampleStore secondCallDown 30 (.ok exampleCreate) (some 1)
    (.ok exampleBody) (by decide)
  ⟨by decide, h.1, h.2.1, h.2.2 (Or.inl rfl)⟩

/-! ## Listing devices -/

/-- CLAIM C7 (code defect). Both device rows of `exampleStore` have `house_id = 2`, yet
`GetDevicesByHouseId 2` returns only the row whose `id` is 2, and
`GetDevicesByHouseId 5`, for which no device has `house_id = 5`, would return the row
with `id = 5` if there were one: the query compares `id`, not `house_id`, with its
argument. -/
theorem GetDevicesByHouseId_compares_id :
    (exampleStore.devices.filter (fun r => r.house_id == 2)).map (fun r => r.id) = [1, 2] ∧
    DB.GetDevicesByHouseId exampleStore none 2 =
      .ok [{ ID := 2, SerialNumber := "SN7", DeviceModelID := 3, HouseID := 2,
             Name := "Hygrometer", Status := "inactive", Attributes := [],
             LastUpdated := 15, CreatedAt := 12 }] ∧
    DB.GetDevicesByHouseId exampleStore none 1 = .ok [scanDevice exampleRow] ∧
    (scanDevice exampleRow).HouseID = 2 := by
  decide

/-- The answer of `GetDevicesByHouseId` on any store: the rows whose `id` is the
argument, whatever their `house_id`. -/
theorem GetDevicesByHouseId_ids (st : Store) (houseId : Int) :
    ∃ ds, DB.GetDevicesByHouseId st none houseId = .ok ds ∧ ∀ d ∈ ds, d.ID = houseId := by
  refine ⟨_, rfl, ?_⟩
  intro d hd
  obtain ⟨r, hr, rfl⟩ := List.mem_map.mp hd
  have hr' : r ∈ st.devices.filter (fun r => r.id == houseId) :=
    (List.perm_insertionSort _ _).subset hr
  simpa [scanDevice] using (List.mem_filter.mp hr').2

/-- CLAIM C8 (code defect). On `exampleStore` the `GetDevices` handler, asked for 1 with
every lookup succeeding, answers 200 with device 1 carrying no attribute at all,
although `GetDevicesAttributes` returns three rows for device 1: the loop assigns
the rows to its copy of the slice element. -/
theorem GetDevices_drops_attributes :
    DeviceHandler.GetDevices exampleStore available "1" (some 1) =
      { writes := [(200, Body.devices
          [{ ID := 1, SerialNumber := "SN1", DeviceModelID := 1, HouseID := 2,
             Name := "Thermostat", Status := "active", Attributes := [],
             LastUpdated := 10, CreatedAt := 10 }])] } ∧
    DB.GetDevicesByHouseId exampleStore none 1 = .ok [scanDevice exampleRow] ∧
    DB.GetDevicesAttributes exampleStore none 1 =
      .ok [{ ID := 1, DeviceID := 1, Key := "temperature", Value := "18.0" },
           { ID := 2, DeviceID := 1, Key := "humidity", Value := "30.0" },
           { ID := 3, DeviceID := 1, Key := "mode", Value := "eco" }] := by
  decide

theorem attachLoop_available (st : Store) (ds : List Device) :
    ∀ (k : Nat) (c : Ctx), DeviceHandler.attachLoop st available k ds c = c := by
  induction ds with
  | nil => intro k c; rfl
  | cons d rest ih =>
    intro k c
    unfold DeviceHandler.attachLoop
    simp only [show available k = none from rfl, DB.GetDevicesAttributes]
    exact ih (k + 1) c

/-- On any store, with every lookup succeeding, the `GetDevices` handler answers with
one 200 write carrying the devices exactly as `GetDevicesByHouseId` returned them,
each with the nil `Attributes` of the scan. -/
theorem GetDevices_available (st : Store) (houseIdStr : String) (houseId : Int)
    (hs : houseIdStr ≠ "") :
    ∃ ds, DB.GetDevicesByHouseId st none houseId = .ok ds ∧
      DeviceHandler.GetDevices st available houseIdStr (some houseId) =
        { writes := [(200, Body.devices ds)] } ∧
      ∀ d ∈ ds, d.Attributes = [] := by
  refine ⟨_, rfl, ?_, ?_⟩
  · unfold DeviceHandler.GetDevices
    simp only [hs, if_false, show available 0 = none from rfl, DB.GetDevicesByHouseId,
      attachLoop_available]
    rfl
  · intro d hd
    obtain ⟨r, _, rfl⟩ := List.mem_map.mp hd
    rfl

/-! ## Failing steps -/

/-- In the `CreateDevice` flow, when the device row is inserted and seeding fails
with `e`, the row stays in the store and the handler writes first a 500 with `e`,
then a 201 with the created device. -/
theorem CreateDevice_seed_failure (st : Store) (fault : Nat → Option String) (now : Nat)
    (m : DeviceCreate) (e : String) (hm : m.missing = []) (h0 : fault 0 = none)
    (hseed : (DeviceHandler.initDeviceAttributes (DB.CreateDevice st none now m).2 fault 1
      st.deviceSeq).1 = some e) :
    (DeviceHandler.CreateDevice st fault now (.ok m)).1.writes =
      [(500, Body.error e), (201, Body.device (scanDevice (createdRow st now m)))] ∧
    (DeviceHandler.CreateDevice st fault now (.ok m)).1.status = some 500 ∧
    createdRow st now m ∈ (DeviceHandler.CreateDevice st fault now (.ok m)).2.devices := by
  have hdev := (initDeviceAttributes_frame (DB.CreateDevice st none now m).2 fault 1
    st.deviceSeq).1
  have hflow : DeviceHandler.CreateDevice st fault now (.ok m) =
      ((Ctx.new.JSON 500 (Body.error e)).JSON 201
          (Body.device (scanDevice (createdRow st now m))),
        (DeviceHandler.initDeviceAttributes (DB.CreateDevice st none now m).2 fault 1
          st.deviceSeq).2) := by
    unfold DeviceHandler.CreateDevice
    simp only [bindDeviceCreate, hm, if_true, h0]
    dsimp only [DB.CreateDevice, scanDevice] at hseed ⊢
    rw [hseed]
    rfl
  rw [hflow]
  refine ⟨rfl, rfl, ?_⟩
  show createdRow st now m ∈ (DeviceHandler.initDeviceAttributes
    (DB.CreateDevice st none now m).2 fault 1 st.deviceSeq).2.devices
  rw [hdev]
  exact List.mem_append_right _ (List.mem_singleton_self _)

/-- CLAIM C9 (code defect). A valid create request on `exampleStore` whose first
attribute insertion is refused by the driver: the device row is stored and stays
(no rollback, no attribute added), and the handler writes a 500 with the seed
error before it writes the 201 with the created device, so the response carries
status 500 and a body of two documents, the error and then the device. -/
theorem CreateDevice_seed_failure_response :
    exampleCreate.missing = [] ∧
    (DeviceHandler.CreateDevice exampleStore secondCallDown 30 (.ok exampleCreate)).1.writes =
      [(500, Body.error "error creating device attribute: connection refused"),
       (201, Body.device (scanDevice (createdRow exampleStore 30 exampleCreate)))] ∧
    (DeviceHandler.CreateDevice exampleStore secondCallDown 30 (.ok exampleCreate)).1.status =
      some 500 ∧
    (DeviceHandler.CreateDevice exampleStore secondCallDown 30 (.ok exampleCreate)).2.devices =
      exampleStore.devices ++ [createdRow exampleStore 30 exampleCreate] ∧
    (DeviceHandler.CreateDevice exampleStore secondCallDown 30 (.ok exampleCreate)).2.attrs =
      exampleStore.attrs := by
  decide

/-- CLAIM C10. For every existing device, when the attribute deletion step of the
`DeleteDevice` handler flow fails (the driver refuses it, or it affects no row)
and the device deletion call goes through, the device row is deleted all the
same: the store afterwards holds exactly the device rows of the other ids. In
particular the step does fail, with "device attributes not found", for a device
without attribute rows even when the driver runs it. -/
theorem DeleteDevice_after_failed_attribute_deletion (st : Store)
    (fault : Nat → Option String) (id : Int) (hd : ∃ r ∈ st.devices, r.id = id)
    (hfail : (DB.DeleteDeviceAttributes st (fault 0) id).1 ≠ none)
    (h1 : fault 1 = none) :
    (DeviceHandler.DeleteDevice st fault (some id)).2.devices =
      st.devices.filter (fun r => !(r.id == id)) ∧
    (∀ r ∈ (DeviceHandler.DeleteDevice st fault (some id)).2.devices, r.id ≠ id) ∧
    (DeviceHandler.DeleteDevice st fault (some id)).1.last =
      some (200, Body.message "Device deleted successfully") ∧
    ((∀ a ∈ st.attrs, a.DeviceID ≠ id) →
      (DB.DeleteDeviceAttributes st none id).1 = some "device attributes not found") := by
  have hdev := (DeleteDeviceAttributes_frame st (fault 0) id).1
  have hex : ∃ r ∈ (DB.DeleteDeviceAttributes st (fault 0) id).2.devices, r.id = id := by
    rw [hdev]; exact hd
  have hflow : DeviceHandler.DeleteDevice st fault (some id) =
      ((match (DB.DeleteDeviceAttributes st (fault 0) id).1 with
          | some e => Ctx.new.JSON 500 (Body.error e)
          | none => Ctx.new).JSON 200 (Body.message "Device deleted successfully"),
        { (DB.DeleteDeviceAttributes st (fault 0) id).2 with
          devices := (DB.DeleteDeviceAttributes st (fault 0) id).2.devices.filter
            (fun r => !(r.id == id)) }) := by
    unfold DeviceHandler.DeleteDevice
    dsimp only
    rw [h1, DeleteDevice_ok_of_mem _ id hex]
  rw [hflow]
  refine ⟨?_, ?_, ?_, (DeleteDeviceAttributes_error_iff st id).mpr⟩
  · show (DB.DeleteDeviceAttributes st (fault 0) id).2.devices.filter _ = _
    rw [hdev]
  · intro r hr
    simpa using (List.mem_filter.mp hr).2
  · cases hE : (DB.DeleteDeviceAttributes st (fault 0) id).1 with
    | none => exact absurd hE hfail
    | some e => simp [Ctx.last, Ctx.JSON, Ctx.new]

theorem DeleteDevice_after_failed_attribute_deletion_witness :
    (∃ r ∈ exampleStore.devices, r.id = 2) ∧
    (DB.DeleteDeviceAttributes exampleStore (available 0) 2).1 ≠ none ∧
    available 1 = none ∧
    (DeviceHandler.DeleteDevice exampleStore available (some 2)).2.devices = [exampleRow] ∧
    (DeviceHandler.DeleteDevice exampleStore available (some 2)).2.devices =
      exampleStore.devices.filter (fun r => !(r.id == 2)) :=
  ⟨by decide, by decide, rfl, by decide,
    (DeleteDevice_after_failed_attribute_deletion exampleStore available 2
      (by decide) (by decide) rfl).1⟩

/-! ## Well-formedness is kept by every handler flow -/

theorem WF_initial : Store.initial.WF := by
  decide

theorem CreateDevice_db_WF (st : Store) (f : Option String) (now : Nat) (m : DeviceCreate)
    (h : st.WF) : (DB.CreateDevice st f now m).2.WF := by
  cases f with
  | some e => exact h
  | none =>
    obtain ⟨hpk, hdev, hak, hattr, href⟩ := h
    refine ⟨?_, ?_, hak, hattr, ?_⟩
    · show ((st.devices ++ [_]).map (fun r : DeviceRow => r.id)).Nodup
      rw [List.map_append, List.nodup_append]
      refine ⟨hpk, List.nodup_singleton _, ?_⟩
      intro i hi hi'
      obtain ⟨r, hr, rfl⟩ := List.mem_map.mp hi
      have := hdev r hr
      simp at hi'
      omega
    · intro r hr
      show r.id < st.deviceSeq + 1
      rcases List.mem_append.mp hr with hold | hnew
      · have := hdev r hold
        omega
      · simp only [List.mem_singleton] at hnew
        subst hnew
        show st.deviceSeq < st.deviceSeq + 1
        omega
    · intro a ha
      show a.DeviceID < st.deviceSeq + 1
      have := href a ha
      omega

theorem CreateDeviceAttribute_WF (st : Store) (f : Option String) (s : DeviceAttribute)
    (h : st.WF) (hs : s.DeviceID < st.deviceSeq) :
    (DB.CreateDeviceAttribute st f s).2.WF ∧
    (DB.CreateDeviceAttribute st f s).2.deviceSeq = st.deviceSeq := by
  cases f with
  | some e => exact ⟨h, rfl⟩
  | none =>
    obtain ⟨hpk, hdev, hak, hattr, href⟩ := h
    refine ⟨⟨hpk, hdev, ?_, ?_, ?_⟩, rfl⟩
    · show ((st.attrs ++ [_]).map (fun a : DeviceAttribute => a.ID)).Nodup
      rw [List.map_append, List.nodup_append]
      refine ⟨hak, List.nodup_singleton _, ?_⟩
      intro i hi hi'
      obtain ⟨a, ha, rfl⟩ := List.mem_map.mp hi
      have := hattr a ha
      simp at hi'
      omega
    · intro a ha
      show a.ID < st.attrSeq + 1
      rcases List.mem_append.mp ha with hold | hnew
      · have := hattr a hold
        omega
      · simp only [List.mem_singleton] at hnew
        subst hnew
        show st.attrSeq < st.attrSeq + 1
        omega
    · intro a ha
      show a.DeviceID < st.deviceSeq
      rcases List.mem_append.mp ha with hold | hnew
      · exact href a hold
      · simp only [List.mem_singleton] at hnew
        subst hnew
        exact hs

theorem seedLoop_WF (fault : Nat → Option String) (attrs : List DeviceAttribute) :
    ∀ (k : Nat) (st : Store), st.WF → (∀ b ∈ attrs, b.DeviceID < st.deviceSeq) →
      (DeviceHandler.seedLoop fault k attrs st).2.WF := by
  induction attrs with
  | nil => intro k st h _; exact h
  | cons b rest ih =>
    intro k st h hb
    obtain ⟨hwf, hseq⟩ := CreateDeviceAttribute_WF st (fault k) b h
      (hb b (List.mem_cons_self _ _))
    unfold DeviceHandler.seedLoop
    rcases hE : DB.CreateDeviceAttribute st (fault k) b with ⟨res, st1⟩
    rw [hE] at hwf hseq
    cases res with
    | error e => exact hwf
    | ok a =>
      apply ih (k + 1) st1 hwf
      intro c hc
      have := hb c (List.mem_cons_of_mem _ hc)
      simp only at hseq
      omega

theorem initDeviceAttributes_WF (st : Store) (fault : Nat → Option String) (k : Nat)
    (deviceId : Int) (h : st.WF) (hid : deviceId < st.deviceSeq) :
    (DeviceHandler.initDeviceAttributes st fault k deviceId).2.WF := by
  apply seedLoop_WF fault _ k st h
  intro b hb
  simp only [DeviceHandler.defaultAttrs, List.mem_cons, List.mem_singleton,
    List.not_mem_nil, or_false] at hb
  rcases hb with rfl | rfl <;> exact hid

theorem DeleteDeviceAttributes_WF (st : Store) (f : Option String) (deviceId : Int)
    (h : st.WF) :
    (DB.DeleteDeviceAttributes st f deviceId).2.WF ∧
    (DB.DeleteDeviceAttributes st f deviceId).2.deviceSeq = st.deviceSeq := by
  cases f with
  | some e => exact ⟨h, rfl⟩
  | none =>
    rw [DeleteDeviceAttributes_store]
    obtain ⟨hpk, hdev, hak, hattr, href⟩ := h
    refine ⟨⟨hpk, hdev, ?_, ?_, ?_⟩, rfl⟩
    · exact hak.sublist (List.Sublist.map _ (List.filter_sublist _))
    · exact fun a ha => hattr a (List.mem_filter.mp ha).1
    · exact fun a ha => href a (List.mem_filter.mp ha).1

theorem DeleteDevice_store (st : Store) (id : Int) :
    (DB.DeleteDevice st none id).2 =
      { st with devices := st.devices.filter (fun r => !(r.id == id)) } := by
  unfold DB.DeleteDevice
  simp only
  split <;> rfl

theorem DeleteDevice_db_WF (st : Store) (f : Option String) (id : Int) (h : st.WF) :
    (DB.DeleteDevice st f id).2.WF := by
  cases f with
  | some e => exact h
  | none =>
    rw [DeleteDevice_store]
    obtain ⟨hpk, hdev, hak, hattr, href⟩ := h
    refine ⟨?_, ?_, hak, hattr, href⟩
    · exact hpk.sublist (List.Sublist.map _ (List.filter_sublist _))
    · exact fun r hr => hdev r (List.mem_filter.mp hr).1

theorem UpdateDevice_store_cases (st : Store) (f1 f2 : Option String) (now : Nat) (id : Int)
    (m : DeviceUpdate) :
    (DB.UpdateDevice st f1 f2 now id m).2 = st ∨
    (DB.UpdateDevice st f1 f2 now id m).2 =
      { st with devices :=
          st.devices.map (fun r => if r.id == id then partialUpdate now m r else r) } := by
  unfold DB.UpdateDevice
  cases hget : DB.GetDeviceByID st f1 id with
  | error e => exact Or.inl rfl
  | ok d0 =>
    cases f2 with
    | some e => exact Or.inl rfl
    | none =>
      simp only [execUpdate_buildUpdate]
      cases hrows : (st.devices.map
          (fun r => if r.id == id then partialUpdate now m r else r)).filter
          (fun r => r.id == id) with
      | nil => exact Or.inr rfl
      | cons r rest => exact Or.inr rfl

theorem UpdateDevice_db_WF (st : Store) (f1 f2 : Option String) (now : Nat) (id : Int)
    (m : DeviceUpdate) (h : st.WF) :
    (DB.UpdateDevice st f1 f2 now id m).2.WF ∧
    (DB.UpdateDevice st f1 f2 now id m).2.deviceSeq = st.deviceSeq := by
  rcases UpdateDevice_store_cases st f1 f2 now id m with hEq | hEq
  · rw [hEq]; exact ⟨h, rfl⟩
  · rw [hEq]
    obtain ⟨hpk, hdev, hak, hattr, href⟩ := h
    have hids := map_update_ids st.devices id (partialUpdate now m) (partialUpdate_id now m)
    refine ⟨⟨?_, ?_, hak, hattr, href⟩, rfl⟩
    · show ((st.devices.map _).map (fun r : DeviceRow => r.id)).Nodup
      rw [hids]; exact hpk
    · intro r hr
      have hmem : r.id ∈ (st.devices.map
          (fun r => if r.id == id then partialUpdate now m r else r)).map (fun r => r.id) :=
        List.mem_map.mpr ⟨r, hr, rfl⟩
      rw [hids] at hmem
      obtain ⟨r0, hr0, hEq0⟩ := List.mem_map.mp hmem
      have := hdev r0 hr0
      show r.id < st.deviceSeq
      omega

/-- The `CreateDevice` handler flow keeps a store well-formed, whatever the request
and whichever store calls fail. -/
theorem CreateDevice_WF (st : Store) (fault : Nat → Option String) (now : Nat)
    (body : Except String DeviceCreate) (h : st.WF) :
    (DeviceHandler.CreateDevice st fault now body).2.WF := by
  unfold DeviceHandler.CreateDevice
  cases hb : bindDeviceCreate body with
  | error e => exact h
  | ok m =>
    have hwf := CreateDevice_db_WF st (fault 0) now m h
    cases hf : fault 0 with
    | some e => exact h
    | none =>
      rw [hf] at hwf
      dsimp only [DB.CreateDevice] at hwf ⊢
      apply initDeviceAttributes_WF _ _ _ _ hwf
      show st.deviceSeq < st.deviceSeq + 1
      omega

/-- The `UpdateDevice` handler flow keeps a store well-formed. -/
theorem UpdateDevice_WF (st : Store) (fault : Nat → Option String) (now : Nat)
    (idParam : Option Int) (body : Except String DeviceUpdate) (h : st.WF) :
    (DeviceHandler.UpdateDevice st fault now idParam body).2.WF := by
  unfold DeviceHandler.UpdateDevice
  cases idParam with
  | none => exact h
  | some id =>
    cases hb : bindDeviceUpdate body with
    | error e => exact h
    | ok m =>
      obtain ⟨hwf, _⟩ := UpdateDevice_db_WF st (fault 0) (fault 1) now id m h
      obtain ⟨_, _, hret⟩ := UpdateDevice_frame st (fault 0) (fault 1) now id m
      dsimp only
      rcases hE : DB.UpdateDevice st (fault 0) (fault 1) now id m with ⟨res, st1⟩
      rw [hE] at hret hwf
      cases res with
      | error e => exact hwf
      | ok device =>
        obtain ⟨hwf2, hseq2⟩ := DeleteDeviceAttributes_WF st1 (fault 2) device.ID hwf
        dsimp only
        apply initDeviceAttributes_WF _ _ _ _ hwf2
        obtain ⟨r, hr, hid⟩ := hret device rfl
        have hlt : r.id < st1.deviceSeq := hwf.2.1 r hr
        have hid' : r.id = device.ID := hid
        rw [hseq2]
        omega

/-- The `DeleteDevice` handler flow keeps a store well-formed. -/
theorem DeleteDevice_WF (st : Store) (fault : Nat → Option String) (idParam : Option Int)
    (h : st.WF) : (DeviceHandler.DeleteDevice st fault idParam).2.WF := by
  unfold DeviceHandler.DeleteDevice
  cases idParam with
  | none => exact h
  | some id =>
    have hwf := DeleteDevice_db_WF (DB.DeleteDeviceAttributes st (fault 0) id).2 (fault 1) id
      (DeleteDeviceAttributes_WF st (fault 0) id h).1
    dsimp only
    rcases hE2 : DB.DeleteDevice (DB.DeleteDeviceAttributes st (fault 0) id).2 (fault 1) id
      with ⟨err2, st2⟩
    rw [hE2] at hwf
    cases err2 <;> exact hwf

/-! ## Deleting a device that does not exist -/

theorem filter_ne_of_absent (devices : List DeviceRow) (id : Int)
    (hno : ∀ r ∈ devices, r.id ≠ id) :
    devices.filter (fun r => !(r.id == id)) = devices := by
  apply List.filter_eq_self.mpr
  intro r hr
  simpa using hno r hr

theorem DeleteDevice_absent (st : Store) (id : Int) (hno : ∀ r ∈ st.devices, r.id ≠ id) :
    DB.DeleteDevice st none id = (some "device not found", st) := by
  have hnil : st.devices.filter (fun r => r.id == id) = [] := by
    apply List.filter_eq_nil_iff.mpr
    intro r hr
    simpa using hno r hr
  unfold DB.DeleteDevice
  simp only [hnil, List.length_nil, if_true, filter_ne_of_absent st.devices id hno]

theorem attrs_absent_of_NoOrphan (st : Store) (id : Int) (h : st.NoOrphan)
    (hno : ∀ r ∈ st.devices, r.id ≠ id) : ∀ a ∈ st.attrs, a.DeviceID ≠ id := by
  intro a ha hEq
  obtain ⟨r, hr, hid⟩ := h a ha
  exact hno r hr (hid.trans hEq)

theorem DeleteDeviceAttributes_absent (st : Store) (id : Int)
    (hno : ∀ a ∈ st.attrs, a.DeviceID ≠ id) :
    DB.DeleteDeviceAttributes st none id = (some "device attributes not found", st) := by
  have hnil : st.attrs.filter (fun a => a.DeviceID == id) = [] := by
    apply List.filter_eq_nil_iff.mpr
    intro a ha
    simpa using hno a ha
  have hall : st.attrs.filter (fun a => !(a.DeviceID == id)) = st.attrs := by
    apply List.filter_eq_self.mpr
    intro a ha
    simpa using hno a ha
  unfold DB.DeleteDeviceAttributes
  simp only [hnil, List.length_nil, if_true, hall]

/-- CLAIM C11 (as stated, refuted). `orphanStore` is the store the delete flow on device 1
of `exampleStore` leaves when the attribute deletion is refused; it has no device
row with id 1. The `DeleteDevice` handler flow on id 1 fails with "device not
found" and yet removes the three attribute rows of that device id. -/
theorem DeleteDevice_absent_removes_orphans :
    orphanStore = (DeviceHandler.DeleteDevice exampleStore firstCallDown (some 1)).2 ∧
    (∀ r ∈ orphanStore.devices, r.id ≠ 1) ∧
    (DeviceHandler.DeleteDevice orphanStore available (some 1)).1 =
      { writes := [(500, Body.error "device not found")] } ∧
    orphanStore.attrs.length = 3 ∧
    (DeviceHandler.DeleteDevice orphanStore available (some 1)).2.attrs = [] ∧
    (DeviceHandler.DeleteDevice orphanStore available (some 1)).2.attrs ≠ orphanStore.attrs := by
  decide

/-- CLAIM C11 (amended). For every store and every id that matches no device row, with
the store calls available: the accessor `DB.DeleteDevice` fails with "device not
found" and returns the store as it was; the `DeleteDevice` handler flow answers
500, its last error being "device not found", leaves the device rows as they
were, and of the attribute rows removes exactly those carrying that device id;
so it leaves the whole store as it was when no attribute row carries that id,
which is the case in every store without orphans. -/
theorem DeleteDevice_absent_effects (st : Store) (id : Int)
    (hno : ∀ r ∈ st.devices, r.id ≠ id) :
    DB.DeleteDevice st none id = (some "device not found", st) ∧
    (DeviceHandler.DeleteDevice st available (some id)).1.status = some 500 ∧
    (DeviceHandler.DeleteDevice st available (some id)).1.last =
      some (500, Body.error "device not found") ∧
    (DeviceHandler.DeleteDevice st available (some id)).2.devices = st.devices ∧
    (DeviceHandler.DeleteDevice st available (some id)).2.attrs =
      st.attrs.filter (fun a => !(a.DeviceID == id)) ∧
    ((∀ a ∈ st.attrs, a.DeviceID ≠ id) →
      (DeviceHandler.DeleteDevice st available (some id)).2 = st) ∧
    (st.NoOrphan → (DeviceHandler.DeleteDevice st available (some id)).2 = st) := by
  have hflow : DeviceHandler.DeleteDevice st available (some id) =
      ((match (DB.DeleteDeviceAttributes st none id).1 with
          | some e => Ctx.new.JSON 500 (Body.error e)
          | none => Ctx.new).JSON 500 (Body.error "device not found"),
        { st with attrs := st.attrs.filter (fun a => !(a.DeviceID == id)) }) := by
    unfold DeviceHandler.DeleteDevice
    dsimp only
    rw [show available 0 = none from rfl, show available 1 = none from rfl,
      DeleteDevice_absent _ id (by rw [(DeleteDeviceAttributes_frame st none id).1]; exact hno),
      DeleteDeviceAttributes_store]
  have hsame : (∀ a ∈ st.attrs, a.DeviceID ≠ id) →
      (DeviceHandler.DeleteDevice st available (some id)).2 = st := by
    intro hattrs
    have hall : st.attrs.filter (fun a => !(a.DeviceID == id)) = st.attrs := by
      apply List.filter_eq_self.mpr
      intro a ha
      simpa using hattrs a ha
    rw [hflow]
    simp only [hall]
  refine ⟨DeleteDevice_absent st id hno, ?_, ?_, ?_, ?_, hsame,
    fun h => hsame (attrs_absent_of_NoOrphan st id h hno)⟩
  · rw [hflow]
    cases (DB.DeleteDeviceAttributes st none id).1 <;> rfl
  · rw [hflow]
    cases (DB.DeleteDeviceAttributes st none id).1 <;> simp [Ctx.last, Ctx.JSON, Ctx.new]
  · rw [hflow]
  · rw [hflow]

theorem DeleteDevice_absent_effects_witness :
    (∀ r ∈ exampleStore.devices, r.id ≠ 7) ∧
    DB.DeleteDevice exampleStore none 7 = (some "device not found", exampleStore) ∧
    (DeviceHandler.DeleteDevice exampleStore available (some 7)).2 = exampleStore :=
  have h := DeleteDevice_absent_effects exampleStore 7 (by decide)
  ⟨by decide, h.1, h.2.2.2.2.2.2 (by decide)⟩

/-! ## Reading one device -/

/-- CLAIM C12 (as stated, refuted). Device 2 of `exampleStore` exists and has no attribute
row; the `GetDeviceByID` handler answers 200 with the device and an empty attribute
list, not 404: the attribute query returns the empty list without an error. -/
theorem GetDeviceByID_without_attributes :
    exampleStore.attrs.filter (fun a => a.DeviceID == 2) = [] ∧
    DB.GetDevicesAttributes exampleStore none 2 = .ok [] ∧
    DeviceHandler.GetDeviceByID exampleStore available (some 2) =
      { writes := [(200, Body.device
          { ID := 2, SerialNumber := "SN7", DeviceModelID := 3, HouseID := 2,
            Name := "Hygrometer", Status := "inactive", Attributes := [],
            LastUpdated := 15, CreatedAt := 12 })] } ∧
    (DeviceHandler.GetDeviceByID exampleStore available (some 2)).status = some 200 ∧
    (DeviceHandler.GetDeviceByID exampleStore available (some 2)).status ≠ some 404 := by
  decide

/-- CLAIM C12 (amended). For every store, every numeric id and every outcome of the two
lookups, the `GetDeviceByID` handler makes exactly one write: 200 with the device
carrying its attribute rows in id order (all of them, possibly none) when the
device lookup goes through, a device row has that id and the attribute lookup goes
through; 404 "Device attributes not found" when the device is found and the
attribute lookup itself fails; 404 "Device not found" when no device row has that
id or the device lookup fails. -/
theorem GetDeviceByID_responses (st : Store) (fault : Nat → Option String) (id : Int) :
    DeviceHandler.GetDeviceByID st fault (some id) =
      match fault 0, st.devices.find? (fun r => r.id == id), fault 1 with
      | none, some r, none =>
        { writes := [(200, Body.device
            { scanDevice r with
              Attributes := orderAttrsById (st.attrs.filter (fun a => a.DeviceID == id)) })] }
      | none, some _, some _ =>
        { writes := [(404, Body.error "Device attributes not found")] }
      | _, _, _ => { writes := [(404, Body.error "Device not found")] } := by
  unfold DeviceHandler.GetDeviceByID DB.GetDeviceByID DB.GetDevicesAttributes
  dsimp only
  cases fault 0 <;> cases st.devices.find? (fun r => r.id == id) <;> cases fault 1 <;> rfl

/-- The 200 answer of the `GetDeviceByID` handler for a device with attribute rows
on a store whose device ids are a key: the device with exactly its attribute
rows. -/
theorem GetDeviceByID_found (st : Store) (d : DeviceRow)
    (hpk : (st.devices.map (fun r => r.id)).Nodup) (hd : d ∈ st.devices) :
    DeviceHandler.GetDeviceByID st available (some d.id) =
      { writes := [(200, Body.device
          { scanDevice d with
            Attributes := orderAttrsById (st.attrs.filter (fun a => a.DeviceID == d.id)) })] } := by
  unfold DeviceHandler.GetDeviceByID DB.GetDeviceByID DB.GetDevicesAttributes
  simp only [show available 0 = none from rfl, show available 1 = none from rfl,
    find_key_of_mem hpk hd]
  rfl

/-! ## The upstream clients: status codes -/

namespace Gateway

theorem GetDevicesByHouseId_status (json : Json) (s : DeviceService) (houseId : String)
    (resp : Response)
    (h : s.HTTPClient.Get (s.BaseURL ++ "/devices?houseId=" ++ houseId) = .ok resp) :
    s.GetDevicesByHouseId json houseId =
      if resp.StatusCode = 200 then
        (json.DecodeDevices resp.Body).mapError (fun e => "error decoding device response: " ++ e)
      else .error ("unexpected status code: " ++ toString resp.StatusCode) := by
  unfold DeviceService.GetDevicesByHouseId
  simp only [h]
  by_cases hc : resp.StatusCode = 200
  · simp only [hc, ne_eq, not_true_eq_false, if_false, if_true]
    cases json.DecodeDevices resp.Body <;> rfl
  · simp only [hc, ne_eq, not_false_eq_true, if_true, if_false]

theorem GetDeviceByID_status (json : Json) (s : DeviceService) (deviceID : String)
    (resp : Response)
    (h : s.HTTPClient.Get (s.BaseURL ++ "/devices/" ++ deviceID) = .ok resp) :
    s.GetDeviceByID json deviceID =
      if resp.StatusCode = 200 then
        (json.DecodeDevice resp.Body).mapError (fun e => "error decoding device response: " ++ e)
      else .error ("unexpected status code: " ++ toString resp.StatusCode) := by
  unfold DeviceService.GetDeviceByID
  simp only [h]
  by_cases hc : resp.StatusCode = 200
  · simp only [hc, ne_eq, not_true_eq_false, if_false, if_true]
    cases json.DecodeDevice resp.Body <;> rfl
  · simp only [hc, ne_eq, not_false_eq_true, if_true, if_false]

theorem CreateDevice_status (json : Json) (s : DeviceService) (m : DeviceCreate) (b : String)
    (resp : Response) (hb : json.MarshalCreate m = .ok b)
    (h : s.HTTPClient.Post (s.BaseURL ++ "/devices") "application/json" b = .ok resp) :
    s.CreateDevice json m =
      if resp.StatusCode = 200 ∨ resp.StatusCode = 201 then
        (json.DecodeDevice resp.Body).mapError (fun e => "error decoding device response: " ++ e)
      else .error ("unexpected status code: " ++ toString resp.StatusCode) := by
  unfold DeviceService.CreateDevice
  simp only [hb, h]
  by_cases hc : resp.StatusCode = 200 ∨ resp.StatusCode = 201
  · have hn : ¬ (resp.StatusCode ≠ 200 ∧ resp.StatusCode ≠ 201) := by
      rintro ⟨h1, h2⟩
      rcases hc with hc | hc
      · exact h1 hc
      · exact h2 hc
    rw [if_neg hn, if_pos hc]
    cases json.DecodeDevice resp.Body <;> rfl
  · have hy : resp.StatusCode ≠ 200 ∧ resp.StatusCode ≠ 201 :=
      ⟨fun h1 => hc (Or.inl h1), fun h2 => hc (Or.inr h2)⟩
    rw [if_pos hy, if_neg hc]

theorem UpdateDevice_status (json : Json) (s : DeviceService) (deviceID : String)
    (m : DeviceUpdate) (b : String) (req : Request) (resp : Response)
    (hb : json.MarshalUpdate m = .ok b)
    (hreq : s.HTTPClient.NewRequest "PUT" (s.BaseURL ++ "/devices/" ++ deviceID) b = .ok req)
    (h : s.HTTPClient.Do { req with ContentType := "application/json" } = .ok resp) :
    s.UpdateDevice json deviceID m =
      if resp.StatusCode = 200 then
        (json.DecodeDevice resp.Body).mapError (fun e => "error decoding device response: " ++ e)
      else .error ("unexpected status code: " ++ toString resp.StatusCode) := by
  unfold DeviceService.UpdateDevice
  simp only [hb, hreq, h]
  by_cases hc : resp.StatusCode = 200
  · simp only [hc, ne_eq, not_true_eq_false, if_false, if_true]
    cases json.DecodeDevice resp.Body <;> rfl
  · simp only [hc, ne_eq, not_false_eq_true, if_true, if_false]

theorem DeleteDevice_status (s : DeviceService) (deviceID : String) (req : Request)
    (resp : Response)
    (hreq : s.HTTPClient.NewRequest "DELETE" (s.BaseURL ++ "/devices/" ++ deviceID) "" = .ok req)
    (h : s.HTTPClient.Do req = .ok resp) :
    s.DeleteDevice deviceID =
      if resp.StatusCode = 200 then none
      else some ("unexpected status code: " ++ toString resp.StatusCode) := by
  unfold DeviceService.DeleteDevice
  simp only [hreq, h]
  by_cases hc : resp.StatusCode = 200
  · simp only [hc, ne_eq, not_true_eq_false, if_false, if_true]
  · simp only [hc, ne_eq, not_false_eq_true, if_true, if_false]

theorem GetTelemetryByDeviceID_status (json : Json) (s : TelemetryService) (deviceID : String)
    (resp : Response)
    (h : s.HTTPClient.Get (s.BaseURL ++ "/telemetry/" ++ deviceID) = .ok resp) :
    s.GetTelemetryByDeviceID json deviceID =
      if resp.StatusCode = 200 then
        (json.DecodeTelemetry resp.Body).mapError
          (fun e => "error decoding telemetry response: " ++ e)
      else .error ("unexpected status code: " ++ toString resp.StatusCode) := by
  unfold TelemetryService.GetTelemetryByDeviceID
  simp only [h]
  by_cases hc : resp.StatusCode = 200
  · simp only [hc, ne_eq, not_true_eq_false, if_false, if_true]
    cases json.DecodeTelemetry resp.Body <;> rfl
  · simp only [hc, ne_eq, not_false_eq_true, if_true, if_false]

/-- CLAIM C13. For every upstream response, with status code `s`: `CreateDevice` of the
device client goes on to decode the body iff `s` is 200 or 201; the five other
client calls (device list, get, update, delete, telemetry get) treat the response
as a success iff `s` is 200; in every other case the call returns the error
"unexpected status code: s" and no data. -/
theorem client_status_codes (json : Json) (s : DeviceService) (t : TelemetryService) :
    (∀ m b resp, json.MarshalCreate m = .ok b →
      s.HTTPClient.Post (s.BaseURL ++ "/devices") "application/json" b = .ok resp →
      s.CreateDevice json m =
        if resp.StatusCode = 200 ∨ resp.StatusCode = 201 then
          (json.DecodeDevice resp.Body).mapError
            (fun e => "error decoding device response: " ++ e)
        else .error ("unexpected status code: " ++ toString resp.StatusCode)) ∧
    (∀ houseId resp,
      s.HTTPClient.Get (s.BaseURL ++ "/devices?houseId=" ++ houseId) = .ok resp →
      s.GetDevicesByHouseId json houseId =
        if resp.StatusCode = 200 then
          (json.DecodeDevices resp.Body).mapError
            (fun e => "error decoding device response: " ++ e)
        else .error ("unexpected status code: " ++ toString resp.StatusCode)) ∧
    (∀ deviceID resp, s.HTTPClient.Get (s.BaseURL ++ "/devices/" ++ deviceID) = .ok resp →
      s.GetDeviceByID json deviceID =
        if resp.StatusCode = 200 then
          (json.DecodeDevice resp.Body).mapError
            (fun e => "error decoding device response: " ++ e)
        else .error ("unexpected status code: " ++ toString resp.StatusCode)) ∧
    (∀ deviceID m b req resp, json.MarshalUpdate m = .ok b →
      s.HTTPClient.NewRequest "PUT" (s.BaseURL ++ "/devices/" ++ deviceID) b = .ok req →
      s.HTTPClient.Do { req with ContentType := "application/json" } = .ok resp →
      s.UpdateDevice json deviceID m =
        if resp.StatusCode = 200 then
          (json.DecodeDevice resp.Body).mapError
            (fun e => "error decoding device response: " ++ e)
        else .error ("unexpected status code: " ++ toString resp.StatusCode)) ∧
    (∀ deviceID req resp,
      s.HTTPClient.NewRequest "DELETE" (s.BaseURL ++ "/devices/" ++ deviceID) "" = .ok req →
      s.HTTPClient.Do req = .ok resp →
      s.DeleteDevice deviceID =
        if resp.StatusCode = 200 then none
        else some ("unexpected status code: " ++ toString resp.StatusCode)) ∧
    (∀ deviceID resp, t.HTTPClient.Get (t.BaseURL ++ "/telemetry/" ++ deviceID) = .ok resp →
      t.GetTelemetryByDeviceID json deviceID =
        if resp.StatusCode = 200 then
          (json.DecodeTelemetry resp.Body).mapError
            (fun e => "error decoding telemetry response: " ++ e)
        else .error ("unexpected status code: " ++ toString resp.StatusCode)) :=
  ⟨fun m b resp hb h => CreateDevice_status json s m b resp hb h,
    fun houseId resp h => GetDevicesByHouseId_status json s houseId resp h,
    fun deviceID resp h => GetDeviceByID_status json s deviceID resp h,
    fun deviceID m b req resp hb hreq h => UpdateDevice_status json s deviceID m b req resp hb hreq h,
    fun deviceID req resp hreq h => DeleteDevice_status s deviceID req resp hreq h,
    fun deviceID resp h => GetTelemetryByDeviceID_status json t deviceID resp h⟩

theorem client_status_codes_witness :
    (exampleHandler (upstreamAnswering 201 "x") (upstreamAnswering 404 "")).DeviceService.CreateDevice
        exampleJson exampleCreate = .ok exampleDevice ∧
    (exampleHandler (upstreamAnswering 201 "x") (upstreamAnswering 404 "")).DeviceService.GetDeviceByID
        exampleJson "1" = .error "unexpected status code: 201" ∧
    (exampleHandler (upstreamAnswering 201 "x") (upstreamAnswering 404 "")).DeviceService.DeleteDevice
        "1" = some "unexpected status code: 201" ∧
    (exampleHandler (upstreamAnswering 201 "x")
        (upstreamAnswering 404 "")).TelemetryService.GetTelemetryByDeviceID
        exampleJson "1" = .error "unexpected status code: 404" :=
  have h := client_status_codes exampleJson
    (exampleHandler (upstreamAnswering 201 "x") (upstreamAnswering 404 "")).DeviceService
    (exampleHandler (upstreamAnswering 201 "x") (upstreamAnswering 404 "")).TelemetryService
  ⟨(h.1 exampleCreate "create" ⟨201, "x"⟩ rfl rfl).trans rfl,
    (h.2.2.1 "1" ⟨201, "x"⟩ rfl).trans rfl,
    (h.2.2.2.2.1 "1" _ ⟨201, "x"⟩ rfl rfl).trans rfl,
    (h.2.2.2.2.2 "1" ⟨404, ""⟩ rfl).trans rfl⟩

/-! ## The gateway handlers: upstream errors -/

theorem failure_shape (text : String) :
    (Ctx.new.JSON 500 (Body.error text)).status = some 500 ∧
    (Ctx.new.JSON 500 (Body.error text)).body = [Body.error text] :=
  ⟨rfl, rfl⟩

theorem GetDevicesByHouseId_upstream_error (json : Json) (h : DeviceHandler) (houseId e : String)
    (hq : houseId ≠ "") (herr : h.DeviceService.GetDevicesByHouseId json houseId = .error e) :
    h.GetDevicesByHouseId json houseId =
      Ctx.new.JSON 500 (Body.error ("Failed to fetch data: " ++ e)) := by
  unfold DeviceHandler.GetDevicesByHouseId
  simp only [hq, if_false, herr]

theorem GetDeviceByID_upstream_error (json : Json) (h : DeviceHandler) (id e : String)
    (herr : h.DeviceService.GetDeviceByID json id = .error e) :
    h.GetDeviceByID json id = Ctx.new.JSON 500 (Body.error ("Failed to fetch data: " ++ e)) := by
  unfold DeviceHandler.GetDeviceByID
  simp only [herr]

theorem GetTelemetry_upstream_error (json : Json) (h : DeviceHandler) (id e : String)
    (herr : h.TelemetryService.GetTelemetryByDeviceID json id = .error e) :
    h.GetTelemetry json id =
      Ctx.new.JSON 500 (Body.error ("Failed to fetch telemetry data: " ++ e)) := by
  unfold DeviceHandler.GetTelemetry
  simp only [herr]

theorem CreateDevice_upstream_error (json : Json) (h : DeviceHandler) (m : DeviceCreate)
    (e : String) (hm : m.missing = [])
    (herr : h.DeviceService.CreateDevice json m = .error e) :
    h.CreateDevice json (.ok m) =
      Ctx.new.JSON 500 (Body.error ("Failed to post data: " ++ e)) := by
  unfold DeviceHandler.CreateDevice
  simp only [bindDeviceCreate, hm, if_true, herr]

theorem UpdateDevice_upstream_error (json : Json) (h : DeviceHandler) (id : String)
    (m : DeviceUpdate) (e : String) (hm : m.missing = [])
    (herr : h.DeviceService.UpdateDevice json id m = .error e) :
    h.UpdateDevice json id (.ok m) =
      Ctx.new.JSON 500 (Body.error ("Failed to update data: " ++ e)) := by
  unfold DeviceHandler.UpdateDevice
  simp only [bindDeviceUpdate, hm, if_true, herr]

theorem DeleteDevice_upstream_error (h : DeviceHandler) (id e : String)
    (herr : h.DeviceService.DeleteDevice id = some e) :
    h.DeleteDevice id = Ctx.new.JSON 500 (Body.error ("Failed to delete data: " ++ e)) := by
  unfold DeviceHandler.DeleteDevice
  simp only [herr]

/-- The errors of the telemetry client are of three kinds: the transport failed,
the status code was not 200, or the body did not decode. -/
theorem GetTelemetryByDeviceID_errors (json : Json) (t : TelemetryService) (deviceID e : String)
    (h : t.GetTelemetryByDeviceID json deviceID = .error e) :
    (∃ cause, e = "error fetching telemetry data: " ++ cause) ∨
    (∃ code : Int, code ≠ 200 ∧ e = "unexpected status code: " ++ toString code) ∨
    (∃ cause, e = "error decoding telemetry response: " ++ cause) := by
  unfold TelemetryService.GetTelemetryByDeviceID at h
  dsimp only at h
  cases hget : t.HTTPClient.Get (t.BaseURL ++ "/telemetry/" ++ deviceID) with
  | error cause =>
    rw [hget] at h
    exact Or.inl ⟨cause, (Except.error.inj h).symm⟩
  | ok resp =>
    rw [hget] at h
    dsimp only at h
    by_cases hc : resp.StatusCode = 200
    · rw [if_neg (not_not.mpr hc)] at h
      cases hdec : json.DecodeTelemetry resp.Body with
      | error cause =>
        rw [hdec] at h
        exact Or.inr (Or.inr ⟨cause, (Except.error.inj h).symm⟩)
      | ok v =>
        rw [hdec] at h
        cases h
    · rw [if_pos hc] at h
      exact Or.inr (Or.inl ⟨resp.StatusCode, hc, (Except.error.inj h).symm⟩)

/-- CLAIM C14. For each of the six gateway handlers, whenever the upstream client call
it makes returns an error `e` (of whatever kind: transport, status, decode), the
response has status 500 and its body is the single error document whose text is
the handler's message followed by `e`; for the telemetry handler the text is
"Failed to fetch telemetry data: " followed by `e`. -/
theorem gateway_upstream_errors (json : Json) (h : DeviceHandler) :
    (∀ houseId e, houseId ≠ "" →
      h.DeviceService.GetDevicesByHouseId json houseId = .error e →
      (h.GetDevicesByHouseId json houseId).status = some 500 ∧
      (h.GetDevicesByHouseId json houseId).body =
        [Body.error ("Failed to fetch data: " ++ e)]) ∧
    (∀ id e, h.DeviceService.GetDeviceByID json id = .error e →
      (h.GetDeviceByID json id).status = some 500 ∧
      (h.GetDeviceByID json id).body = [Body.error ("Failed to fetch data: " ++ e)]) ∧
    (∀ m e, m.missing = [] → h.DeviceService.CreateDevice json m = .error e →
      (h.CreateDevice json (.ok m)).status = some 500 ∧
      (h.CreateDevice json (.ok m)).body = [Body.error ("Failed to post data: " ++ e)]) ∧
    (∀ id m e, m.missing = [] → h.DeviceService.UpdateDevice json id m = .error e →
      (h.UpdateDevice json id (.ok m)).status = some 500 ∧
      (h.UpdateDevice json id (.ok m)).body =
        [Body.error ("Failed to update data: " ++ e)]) ∧
    (∀ id e, h.DeviceService.DeleteDevice id = some e →
      (h.DeleteDevice id).status = some 500 ∧
      (h.DeleteDevice id).body = [Body.error ("Failed to delete data: " ++ e)]) ∧
    (∀ id e, h.TelemetryService.GetTelemetryByDeviceID json id = .error e →
      (h.GetTelemetry json id).status = some 500 ∧
      (h.GetTelemetry json id).body =
        [Body.error ("Failed to fetch telemetry data" ++ (": " ++ e))]) := by
  refine ⟨?_, ?_, ?_, ?_, ?_, ?_⟩
  · intro houseId e hq herr
    rw [GetDevicesByHouseId_upstream_error json h houseId e hq herr]
    exact failure_shape _
  · intro id e herr
    rw [GetDeviceByID_upstream_error json h id e herr]
    exact failure_shape _
  · intro m e hm herr
    rw [CreateDevice_upstream_error json h m e hm herr]
    exact failure_shape _
  · intro id m e hm herr
    rw [UpdateDevice_upstream_error json h id m e hm herr]
    exact failure_shape _
  · intro id e herr
    rw [DeleteDevice_upstream_error h id e herr]
    exact failure_shape _
  · intro id e herr
    rw [GetTelemetry_upstream_error json h id e herr]
    have hs : "Failed to fetch telemetry data" ++ (": " ++ e)
        = "Failed to fetch telemetry data: " ++ e := by
      rw [← String.append_assoc]; rfl
    rw [hs]
    exact failure_shape _

theorem gateway_upstream_errors_witness :
    (exampleHandler (upstreamAnswering 404 "") upstreamTimeout).GetTelemetry exampleJson "1" =
      { writes := [(500, Body.error
          "Failed to fetch telemetry data: error fetching telemetry data: context deadline exceeded (Client.Timeout exceeded while awaiting headers)")] } ∧
    ((exampleHandler (upstreamAnswering 404 "") upstreamTimeout).GetTelemetry
        exampleJson "1").status = some 500 ∧
    ((exampleHandler (upstreamAnswering 404 "") upstreamTimeout).GetDeviceByID
        exampleJson "1").body = [Body.error "Failed to fetch data: unexpected status code: 404"] ∧
    ((exampleHandler (upstreamAnswering 200 "") upstreamTimeout).GetDeviceByID
        exampleJson "1").body =
      [Body.error "Failed to fetch data: error decoding device response: EOF"] :=
  ⟨rfl,
    ((gateway_upstream_errors exampleJson
      (exampleHandler (upstreamAnswering 404 "") upstreamTimeout)).2.2.2.2.2 "1" _ rfl).1,
    ((gateway_upstream_errors exampleJson
      (exampleHandler (upstreamAnswering 404 "") upstreamTimeout)).2.1 "1"
        "unexpected status code: 404" rfl).2,
    ((gateway_upstream_errors exampleJson
      (exampleHandler (upstreamAnswering 200 "") upstreamTimeout)).2.1 "1"
        "error decoding device response: EOF" rfl).2⟩

end Gateway

end Warmhouse
